import Mathlib

/-!
Verification of the union IBC relayer core against its specification.

Shallow embedding of the Rust sources:
  * `src/lib/ibc-vm-rs/src/lib.rs` (IBC VM dispatcher and defaults)
  * `src/voyager/modules/transaction/ethereum/src/main.rs` (EVM tx submitter)
  * `src/voyager/plugins/transaction/cosmos-sdk/src/main.rs` (Cosmos tx plugin)
  * `src/voyager/plugins/event-source/cosmos-sdk/src/main.rs` (event source)
  * `src/lib/unionlabs/src/ibc/core/connection/connection_end.rs` (ABI encode)
  * `src/lib/voyager-core/src/lib.rs` (QueryHeight)

Machine integers are modelled as `Nat` (the programs in question never wrap:
heights, sequence numbers and gas values are well below 2^64; where an overflow
check matters, e.g. `u32` parsing, the bound is explicit). Byte strings are
`List Nat`. Fallible code returns `Option` or `Except`; a Rust `panic!` or
`.unwrap()` on a failing value is modelled as `none` / a dedicated error.
-/

/-! ## Heights (unionlabs `ibc::core::client::height::Height`)

The `Height` struct itself is given by the spec (§3.1); its `Display` /
`FromStr` instances are not under `src/`, so they are modelled from the spec
and the observable format `<revision_number>-<revision_height>`. -/

/-- Height as in the spec §3.1: `{ revision_number: u64, revision_height: u64 }`. -/
structure Height where
  revision_number : Nat
  revision_height : Nat
deriving DecidableEq, Repr

/-- Modelled from the spec: `Height::increment` (unionlabs, not under `src/`)
bumps the revision height by one, keeping the revision number. -/
def Height.increment (h : Height) : Height :=
  { h with revision_height := h.revision_height + 1 }

/-- Decimal digits of a positive number, least significant first. -/
def natToDigitsRev : Nat → List Char
  | 0 => []
  | n + 1 => Nat.digitChar ((n + 1) % 10) :: natToDigitsRev ((n + 1) / 10)
decreasing_by exact Nat.div_lt_self (Nat.succ_pos n) (by decide)

/-- Decimal rendering of a `u64`, as Rust's `Display for u64` produces it. -/
def displayNat (n : Nat) : List Char :=
  if n = 0 then ['0'] else (natToDigitsRev n).reverse

/-- The numeric value of an ASCII digit, `none` for any other character
(Rust's `u64::from_str` rejects non-digits). -/
def digitVal (c : Char) : Option Nat :=
  if '0' ≤ c ∧ c ≤ '9' then some (c.toNat - 48) else none

/-- Accumulating core of decimal parsing: fails on the first non-digit. -/
def parseNatCore : List Char → Nat → Option Nat
  | [], acc => some acc
  | c :: rest, acc =>
    match digitVal c with
    | some d => parseNatCore rest (acc * 10 + d)
    | none => none

/-- Strict decimal parse, as Rust's `u64::from_str`: non-empty, all digits.
(The `u64` overflow bound is irrelevant at the values of interest.) -/
def parseNat (cs : List Char) : Option Nat :=
  if cs = [] then none else parseNatCore cs 0

/-- Split a character list at the first occurrence of `sep`, as Rust's
`str::split_once`: `none` when `sep` does not occur. -/
def splitOnce (cs : List Char) (sep : Char) : Option (List Char × List Char) :=
  match cs with
  | [] => none
  | c :: rest =>
    if c = sep then some ([], rest)
    else (splitOnce rest sep).map (fun p => (c :: p.1, p.2))

/-- Modelled from the spec: `Display for Height` (unionlabs, not under `src/`)
renders `<revision_number>-<revision_height>`. -/
def heightDisplay (h : Height) : List Char :=
  displayNat h.revision_number ++ '-' :: displayNat h.revision_height

/-- Modelled from the spec: `FromStr for Height` (unionlabs, not under `src/`)
splits once on `-` and parses both sides as `u64`; anything else is a
`HeightFromStrError`. -/
def heightFromStr (cs : List Char) : Option Height :=
  match splitOnce cs '-' with
  | none => none
  | some (n, h) =>
    match parseNat n, parseNat h with
    | some rn, some rh => some ⟨rn, rh⟩
    | _, _ => none

/-! ## `QueryHeight` (`src/lib/voyager-core/src/lib.rs`, lines 408–446) -/

/-- `voyager_core::QueryHeight`. -/
inductive QueryHeight where
  | Latest
  | Finalized
  | Specific (height : Height)
deriving DecidableEq, Repr

/-- `Display for QueryHeight` (voyager-core lines 427–435). -/
def queryHeightDisplay : QueryHeight → List Char
  | .Latest => "latest".toList
  | .Finalized => "finalized".toList
  | .Specific height => heightDisplay height

/-- `FromStr for QueryHeight` (voyager-core lines 437–446): `"latest"`, else
parse as a `Height`; there is no arm for `"finalized"`. -/
def queryHeightFromStr (cs : List Char) : Option QueryHeight :=
  if cs = "latest".toList then some .Latest
  else (heightFromStr cs).map QueryHeight.Specific

/-! ## Process-wide IBC defaults (`src/lib/ibc-vm-rs/src/lib.rs`, lines 34–39) -/

/-- `unionlabs::ibc::core::channel::order::Order`. -/
inductive Order where
  | NoneUnspecified
  | Unordered
  | Ordered
deriving DecidableEq, Repr

/-- `unionlabs::ibc::core::connection::version::Version`. -/
structure Version where
  identifier : String
  features : List Order
deriving DecidableEq, Repr

/-- `unionlabs::ibc::core::commitment::merkle_prefix::MerklePrefix`; the
`key_prefix` field is a byte string. -/
structure MerklePrefix where
  keyPrefix : List Nat
deriving DecidableEq, Repr

/-- `DEFAULT_IBC_VERSION` (ibc-vm-rs line 35): the one supported connection
version. -/
def DEFAULT_IBC_VERSION : List Version :=
  [{ identifier := "1", features := [Order.Unordered] }]

/-- `DEFAULT_MERKLE_PREFIX` (ibc-vm-rs line 38): `key_prefix: b"ibc"`. -/
def DEFAULT_MERKLE_PREFIX : MerklePrefix :=
  { keyPrefix := [105, 98, 99] }

/-! ## `ConnectionEnd` ABI encoding
(`src/lib/unionlabs/src/ibc/core/connection/connection_end.rs`, lines 82–137) -/

/-- `unionlabs::ibc::core::connection::state::State`. -/
inductive ConnState where
  | UninitializedUnspecified
  | Init
  | Tryopen
  | Open
deriving DecidableEq, Repr

/-- The `SolIBCConnectionState` Solidity enum (connection_end.rs lines 90–95). -/
inductive SolIBCConnectionState where
  | Unspecified
  | Init
  | TryOpen
  | Open
deriving DecidableEq, Repr

/-- `From<State> for SolIBCConnectionState` (connection_end.rs lines 128–137). -/
def solStateOfState : ConnState → SolIBCConnectionState
  | .UninitializedUnspecified => .Unspecified
  | .Init => .Init
  | .Tryopen => .TryOpen
  | .Open => .Open

/-- The `SolIBCConnection` Solidity struct (connection_end.rs lines 83–88);
the three id fields are `uint32`. -/
structure SolIBCConnection where
  state : SolIBCConnectionState
  clientId : Nat
  counterpartyClientId : Nat
  counterpartyConnectionId : Nat
deriving DecidableEq, Repr

/-- `unionlabs::ibc::core::connection::counterparty::Counterparty`: validated
identifier strings per spec §3.1. -/
structure ConnCounterparty where
  client_id : List Char
  connection_id : Option (List Char)
  pfx : MerklePrefix
deriving DecidableEq, Repr

/-- `unionlabs::ibc::core::connection::connection_end::ConnectionEnd`
(connection_end.rs lines 20–26), identifiers kept as their validated strings. -/
structure ConnectionEnd where
  client_id : List Char
  versions : List Version
  state : ConnState
  counterparty : ConnCounterparty
  delay_period : Nat
deriving DecidableEq, Repr

/-- Rust `str::strip_suffix(char::is_numeric)`: removes exactly ONE trailing
numeric character (a single-`char` predicate pattern), `none` when the last
character is not numeric. For the ASCII identifiers at hand `char::is_numeric`
coincides with `Char.isDigit`. -/
def stripSuffixNumeric (s : List Char) : Option (List Char) :=
  match s.getLast? with
  | none => none
  | some c => if c.isDigit then some (s.dropLast) else none

/-- Strict `u32` parse as Rust's `u32::from_str`: non-empty, all digits, and
the value must fit in 32 bits. -/
def parseU32 (cs : List Char) : Option Nat :=
  match parseNat cs with
  | some n => if n < 2 ^ 32 then some n else none
  | none => none

/-- `Encode<EthAbi> for ConnectionEnd::encode` (connection_end.rs lines
98–126) up to the `abi_encode` call: builds the `SolIBCConnection` record.
Each `.unwrap()` that can fail (on `strip_suffix` and on `parse`) is modelled
by `Option` bind, so a panic is `none`. -/
def mkSolIBCConnection (c : ConnectionEnd) : Option SolIBCConnection := do
  let s1 ← stripSuffixNumeric c.client_id
  let clientId ← parseU32 s1
  let s2 ← stripSuffixNumeric c.counterparty.client_id
  let counterpartyClientId ← parseU32 s2
  let s3 ← stripSuffixNumeric (c.counterparty.connection_id.getD "connection-0".toList)
  let counterpartyConnectionId ← parseU32 s3
  pure { state := solStateOfState c.state
         clientId := clientId
         counterpartyClientId := counterpartyClientId
         counterpartyConnectionId := counterpartyConnectionId }

/-- The numeric suffix of a validated `<prefix><u64>` identifier, as the spec
§3.1 describes it: the value of the maximal run of trailing digits. This is
the SPEC-side reading of claim C5, to be compared with `mkSolIBCConnection`. -/
def numericSuffix (s : List Char) : Option Nat :=
  parseNat ((s.reverse.takeWhile Char.isDigit).reverse)

/-- A concrete `ConnectionEnd` with validated ids, used to exhibit the
divergence of claim C5: client id `cometbls-1`, counterparty client id
`08-wasm-2`, no counterparty connection id yet (an `Init`-state end). -/
def exampleConnectionEnd : ConnectionEnd :=
  { client_id := "cometbls-1".toList
    versions := DEFAULT_IBC_VERSION
    state := ConnState.Init
    counterparty :=
      { client_id := "08-wasm-2".toList
        connection_id := none
        pfx := DEFAULT_MERKLE_PREFIX }
    delay_period := 0 }

/-! ## EVM transaction submitter
(`src/voyager/modules/transaction/ethereum/src/main.rs`)

The submitter's network interactions (gas price fetch, gas estimation, the
multicall send, receipt decoding) are inputs to the pure classification and
dispatch logic modelled here; messages are opaque payloads. -/

/-- Rust `str::contains`: substring test. -/
def containsSubstr : List Char → List Char → Bool
  | [], pat => pat.isEmpty
  | c :: rest, pat => pat.isPrefixOf (c :: rest) || containsSubstr rest pat

/-- A `voyager_message::effect::Msg` as the EVM submitter sees it: an opaque
datagram (its variant name and payload). -/
structure Msg where
  name : String
  payload : List Nat
deriving DecidableEq, Repr

/-- `WithChainId` (voyager-message): a message tagged with its chain id. -/
structure WithChainId (T : Type) where
  chain_id : String
  message : T
deriving DecidableEq, Repr

/-- `voyager_message::effect::Effect`, restricted to the two constructors
`rewrap_msg` produces (ethereum main.rs lines 405–417). -/
inductive EvmEffect where
  | Batch (b : WithChainId (List Msg))
  | Single (s : WithChainId Msg)
deriving DecidableEq, Repr

/-- `queue_msg::Op`, restricted to the combinators the EVM submitter emits:
`Op::Noop`, `seq(...)`, `defer_relative(secs)` and `effect(...)`. -/
inductive EvmOp where
  | Noop
  | Seq (ops : List EvmOp)
  | Defer (seconds : Nat)
  | Effect (e : EvmEffect)

/-- `TxSubmitError` (ethereum main.rs lines 440–456). The two transparent
wrappers keep only the rendered message. -/
inductive TxSubmitError where
  | Contract (message : String)
  | Provider (message : String)
  | NoTxReceipt
  | InvalidRevert (bytes : List Nat)
  | OutOfGas
  | EmptyRevert
  | GasPriceTooHigh (max price : Nat)
deriving DecidableEq, Repr

/-- The gas-price guard of `send_transaction` (ethereum main.rs lines
198–211): with a configured `max_gas_price`, a fetched gas price above it
aborts the attempt with `GasPriceTooHigh`. -/
def checkGasPrice (maxGasPrice : Option Nat) (gasPrice : Nat) :
    Option TxSubmitError :=
  match maxGasPrice with
  | some maxGas =>
    if gasPrice > maxGas then some (.GasPriceTooHigh maxGas gasPrice) else none
  | none => none

/-- The error the provider returned from `call.gas(..).send()`, as the
submitter's match scrutinises it (ethereum main.rs lines 337–356): either a
JSON-RPC error response carrying a message, or anything else. -/
inductive ProviderSendError where
  | jsonRpc (message : String)
  | otherSend (message : String)
deriving DecidableEq, Repr

/-- Classification of a failed send (ethereum main.rs lines 337–356): a
JSON-RPC error whose message contains the insufficient-funds marker becomes
`OutOfGas`; every other error hits `panic!` (modelled as `none`). -/
def classifySendError : ProviderSendError → Option TxSubmitError
  | .jsonRpc m =>
    if containsSubstr m.toList
        "insufficient funds for gas * price + value".toList
    then some .OutOfGas
    else none
  | .otherSend _ => none

/-- One entry of the decoded `MulticallResult` log (ethereum main.rs lines
256–265): per-message success flag and raw return data. -/
structure MulticallResult where
  success : Bool
  returnData : List Nat
deriving DecidableEq, Repr

/-- A revert reason decoded through the IBC handler error ABI
(`IbcHandlerErrors::decode`, from the external `contracts` crate). -/
structure KnownRevert where
  selector : Nat
deriving DecidableEq, Repr

/-- How one message of the batch was logged by the per-message result loop. -/
inductive LogKind where
  | okLogged
  | failedWellKnown
  | failedUnknown
deriving DecidableEq, Repr

/-- The per-message result loop of `send_transaction` (ethereum main.rs lines
273–313). A successful result is logged; a failure whose return data decodes
through the IBC error ABI is logged with `well_known = true` and dropped; a
failure with empty return data aborts the whole batch with `EmptyRevert`; any
other failure is logged with `well_known = false` and dropped.
`IbcHandlerErrors::decode` lives in the external `contracts` crate and is a
parameter. -/
def processMulticallResults (decodeIbcErr : List Nat → Option KnownRevert) :
    List (MulticallResult × Msg) → Except TxSubmitError (List (Msg × LogKind))
  | [] => .ok []
  | (result, msg) :: rest =>
    if result.success then
      (processMulticallResults decodeIbcErr rest).map
        (fun logs => (msg, .okLogged) :: logs)
    else
      match decodeIbcErr result.returnData with
      | some _ =>
        (processMulticallResults decodeIbcErr rest).map
          (fun logs => (msg, .failedWellKnown) :: logs)
      | none =>
        if result.returnData.isEmpty then .error .EmptyRevert
        else
          (processMulticallResults decodeIbcErr rest).map
            (fun logs => (msg, .failedUnknown) :: logs)

/-- `rewrap_msg` (ethereum main.rs lines 405–417): more than one message is
re-wrapped as a `Batch` effect, a single message as `Single` (via
`msgs.pop().unwrap()`, whose panic on an empty vector is `none`). -/
def rewrapMsg (chainId : String) (msgs : List Msg) : Option EvmEffect :=
  if msgs.length > 1 then some (.Batch ⟨chainId, msgs⟩)
  else
    match msgs.getLast? with
    | some m => some (.Single ⟨chainId, m⟩)
    | none => none

/-- The messages an effect re-submits. -/
def effectMsgs : EvmEffect → List Msg
  | .Batch b => b.message
  | .Single s => [s.message]

/-- What `send_transaction` resolves to: an op, or a JSON-RPC error whose
code is `-1` (ethereum main.rs lines 430–434). -/
inductive EvmSendOutcome where
  | op (o : EvmOp)
  | rpcError (code : Int) (err : TxSubmitError)

/-- The final dispatch of `send_transaction` (ethereum main.rs lines
419–436) over the keyring result: `None` means no key was available. The
`rewrap_msg()` panic on empty input propagates as `none`. -/
def evmSendDispatch (chainId : String) (msgs : List Msg)
    (res : Option (Except TxSubmitError Unit)) : Option EvmSendOutcome :=
  match res with
  | some (.ok ()) => some (.op .Noop)
  | some (.error (.GasPriceTooHigh _ _)) =>
    (rewrapMsg chainId msgs).map (fun e => .op (.Seq [.Defer 6, .Effect e]))
  | some (.error .OutOfGas) =>
    (rewrapMsg chainId msgs).map (fun e => .op (.Seq [.Defer 12, .Effect e]))
  | some (.error .EmptyRevert) =>
    (rewrapMsg chainId msgs).map (fun e => .op (.Seq [.Defer 12, .Effect e]))
  | some (.error err) => some (.rpcError (-1) err)
  | none => (rewrapMsg chainId msgs).map (fun e => .op (.Effect e))

/-! ## Cosmos SDK transaction plugin
(`src/voyager/plugins/transaction/cosmos-sdk/src/main.rs`)

The SDK error enums live in the external `chain_utils::cosmos_sdk` crate;
only the variants the plugin matches on are named, with a catch-all for the
rest, following the spec's Cosmos classification table (§4.6). -/

/-- `cosmos_sdk_error::ChannelError`, restricted to the matched variant. -/
inductive ChannelError where
  | ErrRedundantTx
  | otherChannelError (code : Nat)
deriving DecidableEq, Repr

/-- `cosmos_sdk_error::SdkError`, restricted to the matched variant. -/
inductive SdkError where
  | ErrWrongSequence
  | otherSdkError (code : Nat)
deriving DecidableEq, Repr

/-- `cosmos_sdk_error::IbcWasmError`, restricted to the matched variant. -/
inductive IbcWasmError where
  | ErrInvalidChecksum
  | otherIbcWasmError (code : Nat)
deriving DecidableEq, Repr

/-- `cosmos_sdk_error::ClientError`, restricted to the matched variant. -/
inductive ClientError where
  | ErrClientNotFound
  | otherClientError (code : Nat)
deriving DecidableEq, Repr

/-- `cosmos_sdk_error::CapabilityError` (matched wholesale). -/
inductive CapabilityError where
  | capabilityError (code : Nat)
deriving DecidableEq, Repr

/-- `cosmos_sdk_error::CosmosSdkError`: the codespace-tagged SDK error. -/
inductive CosmosSdkError where
  | ChannelError (e : ChannelError)
  | SdkError (e : SdkError)
  | IbcWasmError (e : IbcWasmError)
  | ClientError (e : ClientError)
  | CapabilityError (e : CapabilityError)
  | otherCosmosError (codespace : String) (code : Nat)
deriving DecidableEq, Repr

/-- An `IbcMessage` (plugin `call.rs`): an opaque datagram as far as the
classification and re-enqueue logic is concerned. -/
structure IbcMessage where
  typeUrl : String
  body : List Nat
deriving DecidableEq, Repr

/-- `BroadcastTxCommitError` (cosmos-sdk main.rs lines 593–609); the wrapped
RPC/tonic errors keep only their rendered message. -/
inductive BroadcastTxCommitError where
  | QueryLatestHeight (message : String)
  | BroadcastTxSync (message : String)
  | Inclusion (message : String)
  | Tx (e : CosmosSdkError)
  | SimulateTx (message : String)
  | AccountSequenceMismatch (source : Option String)
  | OutOfGas
deriving DecidableEq, Repr

/-- The inner error adjustment of `do_send_transaction` (cosmos-sdk main.rs
lines 251–290): redundant-tx resolves as success, a wrong-sequence SDK error
and a simulation failure mentioning an account sequence mismatch both become
`AccountSequenceMismatch`; everything else passes through. -/
def broadcastResultAdjust :
    Except BroadcastTxCommitError Unit → Except BroadcastTxCommitError Unit
  | .ok () => .ok ()
  | .error e =>
    match e with
    | .Tx (.ChannelError .ErrRedundantTx) => .ok ()
    | .Tx (.SdkError .ErrWrongSequence) =>
      .error (.AccountSequenceMismatch none)
    | .SimulateTx m =>
      if containsSubstr m.toList "account sequence mismatch".toList
      then .error (.AccountSequenceMismatch (some m))
      else .error (.SimulateTx m)
    | e => .error e

/-- The ops the cosmos-sdk transaction plugin produces: `noop()` or
`call(PluginMessage::new(plugin_name, ModuleCall::SubmitTransaction(msgs)))`. -/
inductive CosmosOp where
  | noop
  | callSubmitTransaction (pluginName : String) (msgs : List IbcMessage)
deriving DecidableEq, Repr

/-- The final dispatch of `do_send_transaction` (cosmos-sdk main.rs lines
295–317) over the keyring result: sequence mismatches, out-of-gas, failed
simulations, failed height queries and an unavailable key (`None`) re-enqueue
the same `SubmitTransaction` call; success resolves to `Noop`; any other
error propagates. -/
def doSendDispatch (pluginName : String) (msgs : List IbcMessage) :
    Option (Except BroadcastTxCommitError Unit) →
    Except BroadcastTxCommitError CosmosOp
  | some (.error (.AccountSequenceMismatch _)) =>
    .ok (.callSubmitTransaction pluginName msgs)
  | some (.error .OutOfGas) => .ok (.callSubmitTransaction pluginName msgs)
  | some (.error (.SimulateTx _)) =>
    .ok (.callSubmitTransaction pluginName msgs)
  | some (.error (.QueryLatestHeight _)) =>
    .ok (.callSubmitTransaction pluginName msgs)
  | some (.ok ()) => .ok .noop
  | some (.error e) => .error e
  | none => .ok (.callSubmitTransaction pluginName msgs)

/-- A JSON-RPC error code as the spec's §6 convention distinguishes them:
the reserved positive fatal constant (`FATAL_JSONRPC_ERROR_CODE`, defined in
the external `voyager-message` root) or a plain numeric code. -/
inductive JsonRpcErrorCode where
  | fatalReserved
  | numeric (code : Int)
deriving DecidableEq, Repr

/-- The error-code mapping of the plugin's `call` handler (cosmos-sdk main.rs
lines 667–701): capability errors, invalid wasm checksums and missing clients
are fatal; every other error is reported with code `-1`. -/
def callErrorCode : BroadcastTxCommitError → JsonRpcErrorCode
  | .Tx (.CapabilityError _) => .fatalReserved
  | .Tx (.IbcWasmError .ErrInvalidChecksum) => .fatalReserved
  | .Tx (.ClientError .ErrClientNotFound) => .fatalReserved
  | _ => .numeric (-1)

/-- The `tx_result` fields `broadcast_tx_commit` reads from an included
transaction (cosmos-sdk main.rs lines 450–475). -/
structure TxResultMeta where
  code : Nat
  codespace : String
  gasUsed : Nat
deriving DecidableEq, Repr

/-- The inclusion-await loop of `broadcast_tx_commit` (cosmos-sdk main.rs
lines 428–487). `txQuery i` is the result of the i-th `tm_client.tx` call
of the loop (the preceding poll of the block height up to `target_height` is
folded into the oracle); `mkSdkErr` is the external
`CosmosSdkError::from_code_and_codespace`. A found transaction with code 0
yields `(tx_hash, gas_used)`; a found transaction with a non-zero code fails
with that SDK error; a failed query retries (bumping the target height) until
the counter `i` exceeds 5, then gives up with `Inclusion`. -/
def broadcastInclusionLoop (txQuery : Nat → Except String TxResultMeta)
    (mkSdkErr : String → Nat → CosmosSdkError) (txHash : List Nat) (i : Nat) :
    Except BroadcastTxCommitError (List Nat × Nat) :=
  match txQuery i with
  | .ok tx =>
    if tx.code = 0 then .ok (txHash, tx.gasUsed)
    else .error (.Tx (mkSdkErr tx.codespace tx.code))
  | .error err =>
    if h : i > 5 then .error (.Inclusion err)
    else broadcastInclusionLoop txQuery mkSdkErr txHash (i + 1)
termination_by 6 - i
decreasing_by omega

/-- The number of `tm_client.tx` queries the inclusion-await loop performs
when started at counter value `i`. -/
def broadcastInclusionQueries (txQuery : Nat → Except String TxResultMeta)
    (i : Nat) : Nat :=
  match txQuery i with
  | .ok _ => 1
  | .error _ =>
    if h : i > 5 then 1 else 1 + broadcastInclusionQueries txQuery (i + 1)
termination_by 6 - i
decreasing_by omega

/-- A raw datagram (`voyager_message::data` payload) before conversion by
`IbcMessage::from_raw_datagram` (plugin `call.rs`, external to `src/`). -/
structure RawDatagram where
  tag : String
  body : List Nat
deriving DecidableEq, Repr

/-- `voyager_message::data::Data`, restricted to the variants the plugin's
interest filter selects, plus a catch-all. -/
inductive QueueData where
  | IdentifiedIbcDatagram (chain_id : String) (message : RawDatagram)
  | IdentifiedIbcDatagramBatch (chain_id : String) (message : List RawDatagram)
  | otherData (tag : String)
deriving DecidableEq, Repr

/-- A queue op as `run_pass` receives it. -/
inductive QueueOp where
  | Data (d : QueueData)
  | otherOp (tag : String)
deriving DecidableEq, Repr

/-- Failure of one `run_pass` entry: the `panic!` / `assert_eq!` arms, or an
`RpcResult` error from `from_raw_datagram` (propagated by `?`). -/
inductive PassEntryError where
  | panicked
  | rpc (message : String)
deriving DecidableEq, Repr

/-- `voyager_vm::pass::PassResult` with ops restricted to what this plugin
produces. -/
structure PassResult where
  optimize_further : List (List Nat × CosmosOp)
  ready : List (List Nat × CosmosOp)
deriving DecidableEq, Repr

/-- One entry of `run_pass` (cosmos-sdk main.rs lines 624–660): an
`IdentifiedIbcDatagram` (resp. `...Batch`) for this chain becomes a
`SubmitTransaction` call with the converted datagram(s) and replaced-index
list `vec![idx]`; a mismatched chain id hits `assert_eq!` and any other op
hits `panic!`. -/
def runPassEntry (fromRawDatagram : RawDatagram → Except String IbcMessage)
    (pluginName chainId : String) :
    Nat × QueueOp → Except PassEntryError (List Nat × CosmosOp)
  | (idx, .Data (.IdentifiedIbcDatagram cid message)) =>
    if cid = chainId then
      match fromRawDatagram message with
      | .ok m => .ok ([idx], .callSubmitTransaction pluginName [m])
      | .error e => .error (.rpc e)
    else .error .panicked
  | (idx, .Data (.IdentifiedIbcDatagramBatch cid message)) =>
    if cid = chainId then
      match message.mapM fromRawDatagram with
      | .ok ms => .ok ([idx], .callSubmitTransaction pluginName ms)
      | .error e => .error (.rpc e)
    else .error .panicked
  | _ => .error .panicked

/-- `run_pass` of the cosmos-sdk transaction plugin (cosmos-sdk main.rs lines
614–663): no further optimisation, and every input op is enumerated and
mapped to a ready entry. -/
def cosmosRunPass (fromRawDatagram : RawDatagram → Except String IbcMessage)
    (pluginName chainId : String) (msgs : List QueueOp) :
    Except PassEntryError PassResult :=
  (msgs.enum.mapM (runPassEntry fromRawDatagram pluginName chainId)).map
    (fun ready => { optimize_further := [], ready := ready })

/-- An op is a datagram for this chain whose conversion through
`from_raw_datagram` succeeds — the hypothesis of claim C8. -/
def datagramConvertible (fromRawDatagram : RawDatagram → Except String IbcMessage)
    (chainId : String) : QueueOp → Bool
  | .Data (.IdentifiedIbcDatagram cid m) =>
    cid = chainId && (fromRawDatagram m).isOk
  | .Data (.IdentifiedIbcDatagramBatch cid ms) =>
    cid = chainId && (ms.mapM fromRawDatagram).isOk
  | _ => false

/-- The datagrams an op carries, after conversion (empty on failure). -/
def convertedDatagrams (fromRawDatagram : RawDatagram → Except String IbcMessage) :
    QueueOp → List IbcMessage
  | .Data (.IdentifiedIbcDatagram _ m) =>
    match fromRawDatagram m with
    | .ok x => [x]
    | .error _ => []
  | .Data (.IdentifiedIbcDatagramBatch _ ms) =>
    match ms.mapM fromRawDatagram with
    | .ok xs => xs
    | .error _ => []
  | _ => []

/-! ## Cosmos SDK event source plugin
(`src/voyager/plugins/event-source/cosmos-sdk/src/main.rs`)

The plugin's `MakeChainEvent` handler resolves chain-level metadata through
the voyager RPC client; those lookups are an oracle record here. Event
payloads (the `FullIbcEvent` JSON value) are abstracted to the variant name —
claim C9 is about the `provable_height` field, which every arm fills from the
same `height.increment()` computed before the match (main.rs line 592). -/

/-- `voyager_core::ClientInfo` (voyager-core lines 247–258), metadata kept as
an opaque rendered value. -/
structure ClientInfo where
  client_type : String
  ibc_interface : String
  metadata : String
deriving DecidableEq, Repr

/-- `voyager_core::ClientStateMeta` (voyager-core lines 261–268). -/
structure ClientStateMeta where
  height : Height
  chain_id : String
deriving DecidableEq, Repr

/-- The two fields the event source reads from a queried channel end. -/
structure ChannelEndMeta where
  version : String
  ordering : Order
deriving DecidableEq, Repr

/-- `ibc_v1::ConnectionMetadata` as assembled by `make_packet_metadata`. -/
structure ConnectionMetadata where
  client_id : List Char
  connection_id : List Char
deriving DecidableEq, Repr

/-- `ibc_v1::ChannelMetadata` as assembled by `make_packet_metadata`. -/
structure ChannelMetadata where
  port_id : List Char
  channel_id : List Char
  version : String
  connection : ConnectionMetadata
deriving DecidableEq, Repr

/-- Modelled from the spec: the identifier of the IBC v1 spec
(`IbcV1::ID`, voyager-message, not under `src/`) — an opaque string tag. -/
def IbcV1_ID : String := "ibc-v1"

/-- Modelled from the spec: the identifier of the union IBC spec
(`IbcUnion::ID`, voyager-message, not under `src/`) — an opaque string tag. -/
def IbcUnion_ID : String := "ibc-union"

/-- The `ChainEvent` the event source constructs (event-source main.rs,
`data(ChainEvent { .. })` sites; cf. `voyager-message/src/data.rs` lines
110–122). The `event` payload is abstracted to its variant name. -/
structure ChainEvent where
  chain_id : String
  client_info : ClientInfo
  counterparty_chain_id : String
  tx_hash : List Nat
  provable_height : Height
  ibc_version_id : String
  event : String
deriving DecidableEq, Repr

/-- The voyager RPC lookups `MakeChainEvent` performs, as pure oracles:
`clientInfo (chain) (ibc spec) (raw client id)`, `clientMeta` additionally at
a query height, `connectionState`/`channelState` are `query_spec_ibc_state`
whose `state` field may be absent, and the union-spec variants key clients by
their numeric id. -/
structure VoyagerOracle where
  clientInfo : String → String → List Char → Except String ClientInfo
  clientMeta : String → String → QueryHeight → List Char → Except String ClientStateMeta
  connectionState : String → QueryHeight → List Char → Except String (Option ConnectionEnd)
  channelState : String → QueryHeight → List Char → List Char → Except String (Option ChannelEndMeta)
  unionClientInfo : String → String → Nat → Except String ClientInfo
  unionClientMeta : String → String → QueryHeight → Nat → Except String ClientStateMeta

/-- How a `MakeChainEvent` invocation fails: the `SubmitEvidence` /
`.expect(..)` panics, a propagated RPC error, or `missing_state`. -/
inductive EventSourceError where
  | panicked
  | rpc (message : String)
  | missingState (message : String)
deriving DecidableEq, Repr

/-- The port/channel/sequence fields shared by the five packet events. -/
structure PacketFields where
  connection_id : List Char
  src_port : List Char
  src_channel : List Char
  dst_port : List Char
  dst_channel : List Char
  sequence : Nat
deriving DecidableEq, Repr

/-- `RawEvent` as `MakeChainEvent` matches it (event-source main.rs lines
595–1154), grouped exactly as the match arms group the constructors; `kind`
records which constructor of a group fired. -/
inductive RawEvent where
  | SubmitEvidence
  | ClientOrConnection (kind : String) (client_id : List Char)
  | ChannelOpenInitOrTry (kind : String) (connection_id : List Char)
      (port_id channel_id counterparty_port_id : List Char)
  | ChannelOpenAckOrConfirm (kind : String) (connection_id : List Char)
      (port_id channel_id counterparty_port_id counterparty_channel_id : List Char)
  | SendPacket (p : PacketFields)
  | TimeoutPacket (p : PacketFields)
  | AcknowledgePacket (p : PacketFields)
  | WriteAcknowledgement (p : PacketFields)
  | RecvPacket (p : PacketFields)
  | UnionCreateClient (client_id : Nat) (client_type : String)
  | UnionConnectionOpenInit (client_id : Nat) (connection_id : Nat)
      (counterparty_client_id : Nat)
deriving DecidableEq, Repr

/-- The `FullIbcEvent` variant name an arm emits. -/
def rawEventName : RawEvent → String
  | .SubmitEvidence => "SubmitEvidence"
  | .ClientOrConnection kind _ => kind
  | .ChannelOpenInitOrTry kind _ _ _ _ => kind
  | .ChannelOpenAckOrConfirm kind _ _ _ _ _ => kind
  | .SendPacket _ => "SendPacket"
  | .TimeoutPacket _ => "TimeoutPacket"
  | .AcknowledgePacket _ => "AcknowledgePacket"
  | .WriteAcknowledgement _ => "WriteAcknowledgement"
  | .RecvPacket _ => "RecvPacket"
  | .UnionCreateClient _ _ => "ClientCreated"
  | .UnionConnectionOpenInit _ _ _ => "ConnectionOpenInit"

/-- `make_packet_metadata` (event-source main.rs lines 335–437): resolve this
side's connection at the event height, the client info and meta of its
client, this side's channel at the event height and the counterparty channel
at the latest height of the counterparty chain, and assemble the two channel
metadata records; the missing counterparty connection id hits `.expect(..)`. -/
def makePacketMetadata (o : VoyagerOracle) (chainId : String)
    (eventHeight : Height)
    (selfConnectionId selfPortId selfChannelId otherPortId otherChannelId : List Char) :
    Except EventSourceError
      (String × ClientInfo × ChannelMetadata × ChannelMetadata × Order) :=
  match o.connectionState chainId (.Specific eventHeight) selfConnectionId with
  | .error e => .error (.rpc e)
  | .ok none => .error (.missingState "connection must exist")
  | .ok (some selfConnection) =>
    match o.clientInfo chainId IbcV1_ID selfConnection.client_id with
    | .error e => .error (.rpc e)
    | .ok client_info =>
      match o.clientMeta chainId IbcV1_ID (.Specific eventHeight)
          selfConnection.client_id with
      | .error e => .error (.rpc e)
      | .ok client_meta =>
        match o.channelState chainId (.Specific eventHeight)
            selfPortId selfChannelId with
        | .error e => .error (.rpc e)
        | .ok none => .error (.missingState "channel must exist")
        | .ok (some thisChannel) =>
          match o.channelState client_meta.chain_id .Latest
              otherPortId otherChannelId with
          | .error e => .error (.rpc e)
          | .ok none => .error (.missingState "channel must exist")
          | .ok (some counterpartyChannel) =>
            match selfConnection.counterparty.connection_id with
            | none => .error .panicked
            | some counterpartyConnectionId =>
              .ok (client_meta.chain_id, client_info,
                { port_id := selfPortId
                  channel_id := selfChannelId
                  version := thisChannel.version
                  connection :=
                    { client_id := selfConnection.client_id
                      connection_id := selfConnectionId } },
                { port_id := otherPortId
                  channel_id := otherChannelId
                  version := counterpartyChannel.version
                  connection :=
                    { client_id := selfConnection.counterparty.client_id
                      connection_id := counterpartyConnectionId } },
                thisChannel.ordering)

/-- The `MakeChainEvent` handler (event-source main.rs lines 586–1154).
`provable_height` is computed once, before the match, as
`height.increment()` (line 592) and used by every arm. The
`SubmitEvidence` arm is `panic!()`. The `UnionCreateClient` arm fills
`ibc_version_id` with `IbcV1::ID` exactly as the source does (line 1102). -/
def makeChainEvent (o : VoyagerOracle) (chainId : String) (height : Height)
    (txHash : List Nat) (event : RawEvent) :
    Except EventSourceError ChainEvent :=
  match event with
  | .SubmitEvidence => .error .panicked
  | .ClientOrConnection _ client_id =>
    match o.clientInfo chainId IbcV1_ID client_id with
    | .error e => .error (.rpc e)
    | .ok client_info =>
      match o.clientMeta chainId IbcV1_ID (.Specific height) client_id with
      | .error e => .error (.rpc e)
      | .ok client_meta =>
        .ok { chain_id := chainId
              client_info := client_info
              counterparty_chain_id := client_meta.chain_id
              tx_hash := txHash
              provable_height := height.increment
              ibc_version_id := IbcV1_ID
              event := rawEventName event }
  | .ChannelOpenInitOrTry _ connection_id _ _ _ =>
    match o.connectionState chainId (.Specific height) connection_id with
    | .error e => .error (.rpc e)
    | .ok none => .error (.missingState "connection must exist")
    | .ok (some connection) =>
      match o.clientInfo chainId IbcV1_ID connection.client_id with
      | .error e => .error (.rpc e)
      | .ok client_info =>
        match o.clientMeta chainId IbcV1_ID (.Specific height)
            connection.client_id with
        | .error e => .error (.rpc e)
        | .ok client_meta =>
          .ok { chain_id := chainId
                client_info := client_info
                counterparty_chain_id := client_meta.chain_id
                tx_hash := txHash
                provable_height := height.increment
                ibc_version_id := IbcV1_ID
                event := rawEventName event }
  | .ChannelOpenAckOrConfirm _ connection_id port_id channel_id _ _ =>
    match o.connectionState chainId (.Specific height) connection_id with
    | .error e => .error (.rpc e)
    | .ok none => .error (.missingState "connection must exist")
    | .ok (some connection) =>
      match o.clientInfo chainId IbcV1_ID connection.client_id with
      | .error e => .error (.rpc e)
      | .ok client_info =>
        match o.clientMeta chainId IbcV1_ID (.Specific height)
            connection.client_id with
        | .error e => .error (.rpc e)
        | .ok client_meta =>
          match o.channelState chainId (.Specific height) port_id channel_id with
          | .error e => .error (.rpc e)
          | .ok none => .error (.missingState "channel must exist")
          | .ok (some _channel) =>
            .ok { chain_id := chainId
                  client_info := client_info
                  counterparty_chain_id := client_meta.chain_id
                  tx_hash := txHash
                  provable_height := height.increment
                  ibc_version_id := IbcV1_ID
                  event := rawEventName event }
  | .SendPacket p | .TimeoutPacket p | .AcknowledgePacket p =>
    match makePacketMetadata o chainId height p.connection_id
        p.src_port p.src_channel p.dst_port p.dst_channel with
    | .error e => .error e
    | .ok (counterparty_chain_id, client_info, _, _, _) =>
      .ok { chain_id := chainId
            client_info := client_info
            counterparty_chain_id := counterparty_chain_id
            tx_hash := txHash
            provable_height := height.increment
            ibc_version_id := IbcV1_ID
            event := rawEventName event }
  | .WriteAcknowledgement p | .RecvPacket p =>
    match makePacketMetadata o chainId height p.connection_id
        p.dst_port p.dst_channel p.src_port p.src_channel with
    | .error e => .error e
    | .ok (counterparty_chain_id, client_info, _, _, _) =>
      .ok { chain_id := chainId
            client_info := client_info
            counterparty_chain_id := counterparty_chain_id
            tx_hash := txHash
            provable_height := height.increment
            ibc_version_id := IbcV1_ID
            event := rawEventName event }
  | .UnionCreateClient client_id _ =>
    match o.unionClientInfo chainId IbcUnion_ID client_id with
    | .error e => .error (.rpc e)
    | .ok client_info =>
      match o.unionClientMeta chainId IbcUnion_ID (.Specific height) client_id with
      | .error e => .error (.rpc e)
      | .ok client_meta =>
        .ok { chain_id := chainId
              client_info := client_info
              counterparty_chain_id := client_meta.chain_id
              tx_hash := txHash
              provable_height := height.increment
              ibc_version_id := IbcV1_ID
              event := rawEventName event }
  | .UnionConnectionOpenInit client_id _ _ =>
    match o.unionClientInfo chainId IbcUnion_ID client_id with
    | .error e => .error (.rpc e)
    | .ok client_info =>
      match o.unionClientMeta chainId IbcUnion_ID (.Specific height) client_id with
      | .error e => .error (.rpc e)
      | .ok client_meta =>
        .ok { chain_id := chainId
              client_info := client_info
              counterparty_chain_id := client_meta.chain_id
              tx_hash := txHash
              provable_height := height.increment
              ibc_version_id := IbcUnion_ID
              event := rawEventName event }

/-! ## The IBC VM (`src/lib/ibc-vm-rs/src/lib.rs`)

The dispatcher `IbcState::process` (lines 291–320), the error, response,
query, message and action types (all of `lib.rs`) are embedded from the
source. The per-variant state machines live in `states/*` which is not under
`src/`; they are modelled from the spec (§3.4 sub-states, §4.2 step
semantics) as records holding their inputs plus a running phase. The host (a
`&mut impl IbcHost`) is explicit state passing over `IbcHostState`; per spec
§4.1 mutations are only visible on success, so every error path returns the
host unchanged. `sha256` is an opaque deterministic primitive (spec §4.1),
modelled as an injective placeholder. The KV store holds typed values — this
identifies a stored value with its (injective) codec image. -/

/-- `Status` (ibc-vm-rs lines 190–196). -/
inductive ClientStatus where
  | Active
  | Frozen
  | Expired
deriving DecidableEq, Repr

/-- `IbcVmResponse` (ibc-vm-rs lines 204–209). -/
inductive IbcVmResponse where
  | SendPacket (sequence : Nat)
  | Empty
deriving DecidableEq, Repr

/-- `Packet` per spec §3.2. -/
structure Packet where
  sequence : Nat
  source_port : List Char
  source_channel : List Char
  destination_port : List Char
  destination_channel : List Char
  data : List Nat
  timeout_height : Height
  timeout_timestamp : Nat
deriving DecidableEq, Repr

/-- `IbcResponse` (ibc-vm-rs lines 214–260): what the host answers a
requested `IbcAction` with. -/
inductive IbcResponse where
  | Empty
  | Initialize
  | Status (status : ClientStatus)
  | LatestHeight (height : Height)
  | TimestampAtHeight (timestamp : Nat)
  | VerifyMembership (valid : Bool)
  | VerifyClientMessage (valid : Bool)
  | CheckForMisbehaviour (misbehaviourFound : Bool)
  | UpdateStateOnMisbehaviour
  | UpdateState (consensusStates : List (Height × List Nat)) (clientState : List Nat)
  | OnChannelOpenInit (err : Option String)
  | OnChannelOpenTry (err : Option String)
  | OnChannelOpenAck (err : Option String)
  | OnChannelOpenConfirm (err : Option String)
  | OnRecvPacket (acks : List (List Nat))
  | OnAcknowledgePacket (err : Option String)
deriving DecidableEq, Repr

/-- `IbcQuery` (ibc-vm-rs lines 346–364). -/
inductive IbcQuery where
  | Status
  | LatestHeight
  | VerifyMembership (height : Height) (delayTimePeriod delayBlockPeriod : Nat)
      (proof path value : List Nat)
  | VerifyClientMessage (msg : List Nat)
  | CheckForMisbehaviour (msg : List Nat)
  | TimestampAtHeight (height : Height)
deriving DecidableEq, Repr

/-- `IbcMsg` (ibc-vm-rs lines 366–428): client-module and IBC-app callbacks
the host runs on the VM's behalf. -/
inductive IbcMsg where
  | Initialize (client_id : Nat) (client_type : String)
      (client_state consensus_state : List Nat)
  | UpdateStateOnMisbehaviour (client_id : Nat) (client_msg : List Nat)
  | UpdateState (client_id : Nat) (client_msg : List Nat)
  | OnChannelOpenInit (order : Order) (connection_id channel_id : List Char)
      (version : String)
  | OnChannelOpenTry (order : Order)
      (connection_id channel_id counterparty_channel_id : List Char)
      (version counterparty_version : String)
  | OnChannelOpenAck (channel_id : List Char)
      (counterparty_channel_id counterparty_version : String)
  | OnChannelOpenConfirm (channel_id : List Char)
  | OnRecvPacket (packet : Packet) (maker maker_msg : List Nat)
  | OnRecvIntentPacket (packet : Packet) (maker maker_msg : List Nat)
  | OnAcknowledgePacket (packet : Packet) (ack relayer : List Nat)
deriving DecidableEq, Repr

/-- `IbcAction` (ibc-vm-rs lines 340–344): a client query batch keyed by the
client id, or a write batch. -/
inductive IbcAction where
  | Query (q : Nat × List IbcQuery)
  | Write (msgs : List IbcMsg)
deriving DecidableEq, Repr

/-- Modelled from the spec: a channel state (§3.2, §4.7);
`types::channel::ChannelState` is not under `src/`. -/
inductive ChannelState where
  | Init
  | TryOpen
  | Open
  | Closed
deriving DecidableEq, Repr

/-- `IbcError` (ibc-vm-rs lines 41–126). -/
inductive IbcError where
  | NotActive (clientId : Nat) (status : ClientStatus)
  | UnexpectedAction
  | ClientMessageVerificationFailed
  | ConnectionNotFound (connectionId : List Char)
  | IncorrectConnectionState (got expected : ConnState)
  | IbcAppCallbackFailed (err : String)
  | AcknowledgementExists (sequence : Nat)
  | EmptyAcknowledgement
  | MembershipVerificationFailure
  | NoSupportedVersionFound
  | EmptyVersionFeatures
  | VersionIdentifiedMismatch (supported proposed : String)
  | UnsupportedFeatureInVersion (feature : Order)
  | ClientStateNotFound (clientId : Nat)
  | ChannelNotFound (channelId : List Char)
  | IncorrectChannelState (got expected : ChannelState)
  | SourcePortMismatch (got expected : List Char)
  | DestinationPortMismatch (got expected : List Char)
  | SourceChannelMismatch (got expected : List Char)
  | DestinationChannelMismatch (got expected : List Char)
  | TimedOutPacket
  | ZeroTimeout
  | PacketCommitmentMismatch (committed expected : List Nat)
  | EmptyPacketsReceived
  | IntentOrderedPacket
deriving DecidableEq, Repr

/-- Events the VM emits (the external `ibc_events::IbcEvent`), with the
payloads the spec's scenarios mention. -/
inductive IbcEvent where
  | CreateClient (client_id : Nat) (client_type : String)
  | UpdateClient (client_id : Nat)
  | ConnectionOpenInit (connection_id : List Char) (client_id counterparty_client_id : Nat)
  | ConnectionOpenTry (connection_id : List Char) (client_id counterparty_client_id : Nat)
  | ConnectionOpenAck (connection_id : List Char)
  | ConnectionOpenConfirm (connection_id : List Char)
  | ChannelOpenInit (port_id channel_id : List Char)
  | ChannelOpenTry (port_id channel_id : List Char)
  | ChannelOpenAck (port_id channel_id : List Char)
  | ChannelOpenConfirm (port_id channel_id : List Char)
  | SendPacket (sequence : Nat)
  | RecvPacket (sequence : Nat)
  | WriteAcknowledgement (sequence : Nat) (ack : List Nat)
  | AcknowledgePacket (sequence : Nat)
deriving DecidableEq, Repr

/-- Modelled from the spec: the VM's view of a connection end (§3.2), with
the numeric client ids the VM uses (cf. `IbcError::NotActive(u32, ..)`). -/
structure VmConnectionEnd where
  client_id : Nat
  versions : List Version
  state : ConnState
  counterparty_client_id : Nat
  counterparty_connection_id : Option (List Char)
  delay_period : Nat
deriving DecidableEq, Repr

/-- Modelled from the spec: a channel end (§3.2). -/
structure VmChannelEnd where
  state : ChannelState
  ordering : Order
  counterparty_port_id : List Char
  counterparty_channel_id : Option (List Char)
  connection_hops : List (List Char)
  version : String
deriving DecidableEq, Repr

/-- A value in the host KV store. Typed rather than raw bytes: the codecs
(`commit_encode` / `read_decode`) are injective, so a stored value stands for
its encoding. -/
inductive StoreValue where
  | bytes (bs : List Nat)
  | connection (c : VmConnectionEnd)
  | channel (c : VmChannelEnd)
  | nat (n : Nat)
deriving DecidableEq, Repr

/-- The host capability state of spec §4.1, made explicit: the committed KV
store, client states, the three monotonic id allocators, current
height/time and the authenticated caller. -/
structure IbcHostState where
  kv : List (List Char × StoreValue)
  clients : List (Nat × List Nat)
  nextClientSeq : Nat
  nextConnectionSeq : Nat
  nextChannelSeq : Nat
  curHeight : Height
  curTimestamp : Nat
  callerAddr : List Nat
deriving DecidableEq, Repr

/-- `read(key)`: KV lookup, `none` for an absent key (spec §4.1). -/
def hostRead (h : IbcHostState) (key : List Char) : Option StoreValue :=
  (h.kv.find? (fun p => p.1 == key)).map Prod.snd

/-- `commit(key, value)`: atomic write, visible to subsequent reads in the
same step (spec §4.1). -/
def hostCommit (h : IbcHostState) (key : List Char) (value : StoreValue) :
    IbcHostState :=
  { h with kv := (key, value) :: h.kv.filter (fun p => !(p.1 == key)) }

/-- `delete(path)`: idempotent removal (spec §4.1). -/
def hostDelete (h : IbcHostState) (key : List Char) : IbcHostState :=
  { h with kv := h.kv.filter (fun p => !(p.1 == key)) }

/-- `next_client_identifier`: strictly monotonic, never reused (spec §4.1). -/
def nextClientIdentifier (h : IbcHostState) : Nat × IbcHostState :=
  (h.nextClientSeq, { h with nextClientSeq := h.nextClientSeq + 1 })

/-- `next_connection_identifier`: allocates `connection-<n>` (spec §6). -/
def nextConnectionIdentifier (h : IbcHostState) : List Char × IbcHostState :=
  ("connection-".toList ++ displayNat h.nextConnectionSeq,
   { h with nextConnectionSeq := h.nextConnectionSeq + 1 })

/-- `next_channel_identifier`: allocates `channel-<n>` (spec §6). -/
def nextChannelIdentifier (h : IbcHostState) : List Char × IbcHostState :=
  ("channel-".toList ++ displayNat h.nextChannelSeq,
   { h with nextChannelSeq := h.nextChannelSeq + 1 })

/-- `sha256`: an opaque deterministic hash (spec §4.1); an injective
placeholder suffices for the model. -/
def sha256Model (data : List Nat) : List Nat :=
  data.length :: data

/-- Canonical packet bytes hashed into the commitment (spec §4.2 step 4 of
SendPacket); injective in the timeout fields, sequence and data. -/
def packetCanonical (p : Packet) : List Nat :=
  p.timeout_height.revision_number :: p.timeout_height.revision_height ::
    p.timeout_timestamp :: p.sequence :: p.data

/-- Storage path `connections/<connection-id>` (spec §6). -/
def connectionPath (connectionId : List Char) : List Char :=
  "connections/".toList ++ connectionId

/-- Storage path `channelEnds/ports/<p>/channels/<c>` (ICS-24, spec §6). -/
def channelPath (portId channelId : List Char) : List Char :=
  "channelEnds/ports/".toList ++ portId ++ "/channels/".toList ++ channelId

/-- Storage path `commitments/ports/<p>/channels/<c>/sequences/<s>` (spec §6). -/
def commitmentPath (portId channelId : List Char) (sequence : Nat) : List Char :=
  "commitments/ports/".toList ++ portId ++ "/channels/".toList ++ channelId ++
    "/sequences/".toList ++ displayNat sequence

/-- Storage path `acks/ports/<p>/channels/<c>/sequences/<s>` (spec §6). -/
def ackPath (portId channelId : List Char) (sequence : Nat) : List Char :=
  "acks/ports/".toList ++ portId ++ "/channels/".toList ++ channelId ++
    "/sequences/".toList ++ displayNat sequence

/-- Storage path `receipts/ports/<p>/channels/<c>/sequences/<s>` (spec §6). -/
def receiptPath (portId channelId : List Char) (sequence : Nat) : List Char :=
  "receipts/ports/".toList ++ portId ++ "/channels/".toList ++ channelId ++
    "/sequences/".toList ++ displayNat sequence

/-- Storage path `nextSequenceSend/ports/<p>/channels/<c>` (spec §6). -/
def nextSequenceSendPath (portId channelId : List Char) : List Char :=
  "nextSequenceSend/ports/".toList ++ portId ++ "/channels/".toList ++ channelId

/-- Storage path `nextSequenceRecv/ports/<p>/channels/<c>` (spec §6). -/
def nextSequenceRecvPath (portId channelId : List Char) : List Char :=
  "nextSequenceRecv/ports/".toList ++ portId ++ "/channels/".toList ++ channelId

/-- Storage path `nextSequenceAck/ports/<p>/channels/<c>` (spec §6). -/
def nextSequenceAckPath (portId channelId : List Char) : List Char :=
  "nextSequenceAck/ports/".toList ++ portId ++ "/channels/".toList ++ channelId

/-- Storage path `clients/<id>/clientState` (spec §6). -/
def clientStatePath (clientId : Nat) : List Char :=
  "clients/".toList ++ displayNat clientId ++ "/clientState".toList

/-- Storage path `clients/<id>/consensusStates/<h>` (spec §6). -/
def consensusStatePath (clientId : Nat) (h : Height) : List Char :=
  "clients/".toList ++ displayNat clientId ++ "/consensusStates/".toList ++
    heightDisplay h

/-- `Either` (ibc-vm-rs lines 439–442). -/
inductive Either (L R : Type) where
  | left (l : L)
  | right (r : R)
deriving DecidableEq, Repr

/-- Version intersection for `ConnOpenTry` (spec §4.2): the supported
versions whose identifier the counterparty also proposes. -/
def versionIntersection (counterpartyVersions : List Version) : List Version :=
  DEFAULT_IBC_VERSION.filter
    (fun v => counterpartyVersions.any (fun cv => cv.identifier == v.identifier))

/-- Version admission for `ConnOpenAck` (spec §4.2): the proposed version
must have features, carry a supported identifier, and contain only features
from the supported feature set (`{Unordered}`). -/
def checkVersionOnAck (proposed : Version) : Except IbcError Unit :=
  if proposed.features.isEmpty then .error .EmptyVersionFeatures
  else
    match DEFAULT_IBC_VERSION.find? (fun v => v.identifier == proposed.identifier) with
    | none => .error (.VersionIdentifiedMismatch "1" proposed.identifier)
    | some supported =>
      match proposed.features.find? (fun f => !(supported.features.contains f)) with
      | some f => .error (.UnsupportedFeatureInVersion f)
      | none => .ok ()

/-- Whether a channel ordering is admitted by a connection version's feature
set (spec §4.2: the channel's ordering must match its connection's version
features). -/
def orderingSupported (conn : VmConnectionEnd) (ordering : Order) : Bool :=
  conn.versions.any (fun v => v.features.contains ordering)

/-- Strict lexicographic order on heights (spec §3.1). -/
def heightLt (a b : Height) : Bool :=
  a.revision_number < b.revision_number ||
    (a.revision_number == b.revision_number && a.revision_height < b.revision_height)

/-- The "no height" value `0.0` (spec §3.1). -/
def heightIsZero (a : Height) : Bool :=
  a.revision_number == 0 && a.revision_height == 0

/-- Tag of a connection state, for the placeholder codecs. -/
def connStateTag : ConnState → Nat
  | .UninitializedUnspecified => 0
  | .Init => 1
  | .Tryopen => 2
  | .Open => 3

/-- Tag of a channel state, for the placeholder codecs. -/
def channelStateTag : ChannelState → Nat
  | .Init => 0
  | .TryOpen => 1
  | .Open => 2
  | .Closed => 3

/-- Tag of an ordering, for the placeholder codecs. -/
def orderTag : Order → Nat
  | .NoneUnspecified => 0
  | .Unordered => 1
  | .Ordered => 2

/-- Placeholder codec for a connection version. -/
def versionBytes (v : Version) : List Nat :=
  v.identifier.toList.map Char.toNat ++ v.features.map orderTag

/-- Placeholder codec for a connection end, used as the `value` of membership
proofs of the counterparty's connection (the real proto codec is external). -/
def vmConnectionEndBytes (c : VmConnectionEnd) : List Nat :=
  connStateTag c.state :: c.client_id :: c.counterparty_client_id ::
    c.delay_period ::
    ((c.versions.map versionBytes).flatten ++
      (match c.counterparty_connection_id with
       | none => [0]
       | some cid => 1 :: cid.map Char.toNat))

/-- Placeholder codec for a channel end, used as the `value` of membership
proofs of the counterparty's channel. -/
def vmChannelEndBytes (c : VmChannelEnd) : List Nat :=
  channelStateTag c.state :: orderTag c.ordering ::
    (c.counterparty_port_id.map Char.toNat ++
      (match c.counterparty_channel_id with
       | none => [0]
       | some cid => 1 :: cid.map Char.toNat) ++
      (c.connection_hops.map (List.map Char.toNat)).flatten ++
      c.version.toList.map Char.toNat)

/-- Modelled from the spec: the running phase of `CreateClient` (§3.4). -/
inductive CreateClientPhase where
  | Init
  | Initializing (client_id : Nat)
  | FetchingStatus (client_id : Nat)
deriving DecidableEq, Repr

/-- Modelled from the spec: the `CreateClient` state (§3.4): its inputs plus
the running phase. -/
structure CreateClient where
  client_type : String
  client_state : List Nat
  consensus_state : List Nat
  phase : CreateClientPhase
deriving DecidableEq, Repr

/-- Modelled from the spec: `CreateClient::process` — allocate a client id,
ask the host to initialize the client module, require an `Active` status and
commit both states (§4.2, §4.1). -/
def CreateClient.process (s : CreateClient) (host : IbcHostState)
    (resp : List IbcResponse) :
    Except IbcError (Either (CreateClient × IbcAction) (List IbcEvent × IbcVmResponse)) ×
      IbcHostState :=
  match s.phase, resp with
  | .Init, [.Empty] =>
    let (client_id, host') := nextClientIdentifier host
    (.ok (.left ({ s with phase := .Initializing client_id },
      .Write [.Initialize client_id s.client_type s.client_state s.consensus_state])),
     host')
  | .Initializing client_id, [.Initialize] =>
    (.ok (.left ({ s with phase := .FetchingStatus client_id },
      .Query (client_id, [.Status]))), host)
  | .FetchingStatus client_id, [.Status status] =>
    match status with
    | .Active =>
      let host' := hostCommit host (clientStatePath client_id) (.bytes s.client_state)
      let host'' := hostCommit host' (consensusStatePath client_id host.curHeight)
        (.bytes s.consensus_state)
      let host''' := { host'' with clients := (client_id, s.client_state) :: host''.clients }
      (.ok (.right ([.CreateClient client_id s.client_type], .Empty)), host''')
    | st => (.error (.NotActive client_id st), host)
  | _, _ => (.error .UnexpectedAction, host)

/-- Modelled from the spec: the running phase of `UpdateClient` (§3.4). -/
inductive UpdateClientPhase where
  | Init
  | VerifyingMessage
  | CheckingMisbehaviour
  | Updating
  | UpdatingOnMisbehaviour
deriving DecidableEq, Repr

/-- Modelled from the spec: the `UpdateClient` state (§3.4). -/
structure UpdateClient where
  client_id : Nat
  client_msg : List Nat
  phase : UpdateClientPhase
deriving DecidableEq, Repr

/-- Modelled from the spec: `UpdateClient::process` — verify the client
message, check for misbehaviour, then let the client module update its
states and commit them (§4.2). -/
def UpdateClient.process (s : UpdateClient) (host : IbcHostState)
    (resp : List IbcResponse) :
    Except IbcError (Either (UpdateClient × IbcAction) (List IbcEvent × IbcVmResponse)) ×
      IbcHostState :=
  match s.phase, resp with
  | .Init, [.Empty] =>
    match host.clients.find? (fun p => p.1 == s.client_id) with
    | none => (.error (.ClientStateNotFound s.client_id), host)
    | some _ =>
      (.ok (.left ({ s with phase := .VerifyingMessage },
        .Query (s.client_id, [.VerifyClientMessage s.client_msg]))), host)
  | .VerifyingMessage, [.VerifyClientMessage valid] =>
    if valid then
      (.ok (.left ({ s with phase := .CheckingMisbehaviour },
        .Query (s.client_id, [.CheckForMisbehaviour s.client_msg]))), host)
    else (.error .ClientMessageVerificationFailed, host)
  | .CheckingMisbehaviour, [.CheckForMisbehaviour found] =>
    if found then
      (.ok (.left ({ s with phase := .UpdatingOnMisbehaviour },
        .Write [.UpdateStateOnMisbehaviour s.client_id s.client_msg])), host)
    else
      (.ok (.left ({ s with phase := .Updating },
        .Write [.UpdateState s.client_id s.client_msg])), host)
  | .UpdatingOnMisbehaviour, [.UpdateStateOnMisbehaviour] =>
    (.ok (.right ([.UpdateClient s.client_id], .Empty)), host)
  | .Updating, [.UpdateState consensusStates clientState] =>
    let host' := hostCommit host (clientStatePath s.client_id) (.bytes clientState)
    let host'' := consensusStates.foldl
      (fun hh p => hostCommit hh (consensusStatePath s.client_id p.1) (.bytes p.2)) host'
    let host''' := { host'' with clients := (s.client_id, clientState) :: host''.clients }
    (.ok (.right ([.UpdateClient s.client_id], .Empty)), host''')
  | _, _ => (.error .UnexpectedAction, host)

/-- Modelled from the spec: the running phase of `ConnectionOpenInit` (§3.4). -/
inductive ConnOpenInitPhase where
  | Init
  | CheckingStatus
deriving DecidableEq, Repr

/-- Modelled from the spec: the `ConnectionOpenInit` state (§3.4, §4.2): no
version selection yet, no proof. -/
structure ConnectionOpenInit where
  client_id : Nat
  counterparty_client_id : Nat
  delay_period : Nat
  phase : ConnOpenInitPhase
deriving DecidableEq, Repr

/-- Modelled from the spec: `ConnectionOpenInit::process` — require an active
client, allocate a connection id and commit an `Init` connection end with the
default version set (§4.2, §4.7). -/
def ConnectionOpenInit.process (s : ConnectionOpenInit) (host : IbcHostState)
    (resp : List IbcResponse) :
    Except IbcError (Either (ConnectionOpenInit × IbcAction) (List IbcEvent × IbcVmResponse)) ×
      IbcHostState :=
  match s.phase, resp with
  | .Init, [.Empty] =>
    (.ok (.left ({ s with phase := .CheckingStatus },
      .Query (s.client_id, [.Status]))), host)
  | .CheckingStatus, [.Status status] =>
    match status with
    | .Active =>
      let (connection_id, host') := nextConnectionIdentifier host
      let endV : VmConnectionEnd :=
        { client_id := s.client_id
          versions := DEFAULT_IBC_VERSION
          state := .Init
          counterparty_client_id := s.counterparty_client_id
          counterparty_connection_id := none
          delay_period := s.delay_period }
      let host'' := hostCommit host' (connectionPath connection_id) (.connection endV)
      (.ok (.right ([.ConnectionOpenInit connection_id s.client_id
        s.counterparty_client_id], .Empty)), host'')
    | st => (.error (.NotActive s.client_id st), host)
  | _, _ => (.error .UnexpectedAction, host)

/-- Modelled from the spec: the running phase of `ConnectionOpenTry` (§3.4). -/
inductive ConnOpenTryPhase where
  | Init
  | VerifyingMembership
deriving DecidableEq, Repr

/-- Modelled from the spec: the `ConnectionOpenTry` state (§3.4). -/
structure ConnectionOpenTry where
  client_id : Nat
  counterparty_client_id : Nat
  counterparty_connection_id : List Char
  counterparty_versions : List Version
  connection_end_proof : List Nat
  proof_height : Height
  delay_period : Nat
  phase : ConnOpenTryPhase
deriving DecidableEq, Repr

/-- Modelled from the spec: `ConnectionOpenTry::process` — require a
membership proof of the counterparty's `Init` end, intersect the supported
versions (`NoSupportedVersionFound` when empty), allocate an id and commit a
`TryOpen` end (§4.2, §4.7). -/
def ConnectionOpenTry.process (s : ConnectionOpenTry) (host : IbcHostState)
    (resp : List IbcResponse) :
    Except IbcError (Either (ConnectionOpenTry × IbcAction) (List IbcEvent × IbcVmResponse)) ×
      IbcHostState :=
  match s.phase, resp with
  | .Init, [.Empty] =>
    let expected : VmConnectionEnd :=
      { client_id := s.counterparty_client_id
        versions := s.counterparty_versions
        state := .Init
        counterparty_client_id := s.client_id
        counterparty_connection_id := none
        delay_period := s.delay_period }
    (.ok (.left ({ s with phase := .VerifyingMembership },
      .Query (s.client_id, [.VerifyMembership s.proof_height 0 0
        s.connection_end_proof
        ((connectionPath s.counterparty_connection_id).map Char.toNat)
        (vmConnectionEndBytes expected)]))), host)
  | .VerifyingMembership, [.VerifyMembership valid] =>
    if valid then
      match versionIntersection s.counterparty_versions with
      | [] => (.error .NoSupportedVersionFound, host)
      | versions =>
        let (connection_id, host') := nextConnectionIdentifier host
        let endV : VmConnectionEnd :=
          { client_id := s.client_id
            versions := versions
            state := .Tryopen
            counterparty_client_id := s.counterparty_client_id
            counterparty_connection_id := some s.counterparty_connection_id
            delay_period := s.delay_period }
        let host'' := hostCommit host' (connectionPath connection_id) (.connection endV)
        (.ok (.right ([.ConnectionOpenTry connection_id s.client_id
          s.counterparty_client_id], .Empty)), host'')
    else (.error .MembershipVerificationFailure, host)
  | _, _ => (.error .UnexpectedAction, host)

/-- Modelled from the spec: the running phase of `ConnectionOpenAck` (§3.4). -/
inductive ConnOpenAckPhase where
  | Init
  | VerifyingMembership
deriving DecidableEq, Repr

/-- Modelled from the spec: the `ConnectionOpenAck` state (§3.4). -/
structure ConnectionOpenAck where
  connection_id : List Char
  version : Version
  counterparty_connection_id : List Char
  connection_end_proof : List Nat
  proof_height : Height
  phase : ConnOpenAckPhase
deriving DecidableEq, Repr

/-- Modelled from the spec: `ConnectionOpenAck::process` — the local end must
be `Init`, the proposed version must be in the support set with features from
`{Unordered}` only, the counterparty must prove a `TryOpen` end, then the
local end opens (§4.2, §4.7). -/
def ConnectionOpenAck.process (s : ConnectionOpenAck) (host : IbcHostState)
    (resp : List IbcResponse) :
    Except IbcError (Either (ConnectionOpenAck × IbcAction) (List IbcEvent × IbcVmResponse)) ×
      IbcHostState :=
  match s.phase, resp with
  | .Init, [.Empty] =>
    match hostRead host (connectionPath s.connection_id) with
    | some (.connection c) =>
      if c.state = ConnState.Init then
        match checkVersionOnAck s.version with
        | .error e => (.error e, host)
        | .ok () =>
          let expected : VmConnectionEnd :=
            { client_id := c.counterparty_client_id
              versions := [s.version]
              state := .Tryopen
              counterparty_client_id := c.client_id
              counterparty_connection_id := some s.connection_id
              delay_period := c.delay_period }
          (.ok (.left ({ s with phase := .VerifyingMembership },
            .Query (c.client_id, [.VerifyMembership s.proof_height 0 0
              s.connection_end_proof
              ((connectionPath s.counterparty_connection_id).map Char.toNat)
              (vmConnectionEndBytes expected)]))), host)
      else (.error (.IncorrectConnectionState c.state .Init), host)
    | _ => (.error (.ConnectionNotFound s.connection_id), host)
  | .VerifyingMembership, [.VerifyMembership valid] =>
    if valid then
      match hostRead host (connectionPath s.connection_id) with
      | some (.connection c) =>
        let endV : VmConnectionEnd :=
          { c with state := .Open
                   versions := [s.version]
                   counterparty_connection_id := some s.counterparty_connection_id }
        let host' := hostCommit host (connectionPath s.connection_id) (.connection endV)
        (.ok (.right ([.ConnectionOpenAck s.connection_id], .Empty)), host')
      | _ => (.error (.ConnectionNotFound s.connection_id), host)
    else (.error .MembershipVerificationFailure, host)
  | _, _ => (.error .UnexpectedAction, host)

/-- Modelled from the spec: the running phase of `ConnectionOpenConfirm` (§3.4). -/
inductive ConnOpenConfirmPhase where
  | Init
  | VerifyingMembership
deriving DecidableEq, Repr

/-- Modelled from the spec: the `ConnectionOpenConfirm` state (§3.4). -/
structure ConnectionOpenConfirm where
  connection_id : List Char
  connection_end_proof : List Nat
  proof_height : Height
  phase : ConnOpenConfirmPhase
deriving DecidableEq, Repr

/-- Modelled from the spec: `ConnectionOpenConfirm::process` — the local end
must be `TryOpen`, the counterparty must prove an `Open` end, then the local
end opens (§4.2, §4.7). -/
def ConnectionOpenConfirm.process (s : ConnectionOpenConfirm) (host : IbcHostState)
    (resp : List IbcResponse) :
    Except IbcError (Either (ConnectionOpenConfirm × IbcAction) (List IbcEvent × IbcVmResponse)) ×
      IbcHostState :=
  match s.phase, resp with
  | .Init, [.Empty] =>
    match hostRead host (connectionPath s.connection_id) with
    | some (.connection c) =>
      if c.state = ConnState.Tryopen then
        match c.counterparty_connection_id with
        | some counterpartyConnectionId =>
          let expected : VmConnectionEnd :=
            { client_id := c.counterparty_client_id
              versions := c.versions
              state := .Open
              counterparty_client_id := c.client_id
              counterparty_connection_id := some s.connection_id
              delay_period := c.delay_period }
          (.ok (.left ({ s with phase := .VerifyingMembership },
            .Query (c.client_id, [.VerifyMembership s.proof_height 0 0
              s.connection_end_proof
              ((connectionPath counterpartyConnectionId).map Char.toNat)
              (vmConnectionEndBytes expected)]))), host)
        | none => (.error (.IncorrectConnectionState c.state .Tryopen), host)
      else (.error (.IncorrectConnectionState c.state .Tryopen), host)
    | _ => (.error (.ConnectionNotFound s.connection_id), host)
  | .VerifyingMembership, [.VerifyMembership valid] =>
    if valid then
      match hostRead host (connectionPath s.connection_id) with
      | some (.connection c) =>
        let host' := hostCommit host (connectionPath s.connection_id)
          (.connection { c with state := .Open })
        (.ok (.right ([.ConnectionOpenConfirm s.connection_id], .Empty)), host')
      | _ => (.error (.ConnectionNotFound s.connection_id), host)
    else (.error .MembershipVerificationFailure, host)
  | _, _ => (.error .UnexpectedAction, host)

/-- Modelled from the spec: the running phase of `ChannelOpenInit` (§3.4). -/
inductive ChanOpenInitPhase where
  | Init
  | CallbackCalled (channel_id : List Char)
deriving DecidableEq, Repr

/-- Modelled from the spec: the `ChannelOpenInit` state (§3.4). -/
structure ChannelOpenInit where
  port_id : List Char
  channel : VmChannelEnd
  phase : ChanOpenInitPhase
deriving DecidableEq, Repr

/-- Modelled from the spec: `ChannelOpenInit::process` — the channel's
connection must exist and its version features must admit the channel's
ordering; the IBC-app callback runs before the `Init` channel end and the
three `nextSequence*` counters are committed (§4.2). -/
def ChannelOpenInit.process (s : ChannelOpenInit) (host : IbcHostState)
    (resp : List IbcResponse) :
    Except IbcError (Either (ChannelOpenInit × IbcAction) (List IbcEvent × IbcVmResponse)) ×
      IbcHostState :=
  match s.phase, resp with
  | .Init, [.Empty] =>
    match s.channel.connection_hops with
    | [connectionId] =>
      match hostRead host (connectionPath connectionId) with
      | some (.connection conn) =>
        if orderingSupported conn s.channel.ordering then
          if s.channel.state = ChannelState.Init then
            let (channel_id, host') := nextChannelIdentifier host
            (.ok (.left ({ s with phase := .CallbackCalled channel_id },
              .Write [.OnChannelOpenInit s.channel.ordering connectionId channel_id
                s.channel.version])), host')
          else (.error (.IncorrectChannelState s.channel.state .Init), host)
        else (.error (.UnsupportedFeatureInVersion s.channel.ordering), host)
      | _ => (.error (.ConnectionNotFound connectionId), host)
    | _ => (.error .UnexpectedAction, host)
  | .CallbackCalled channel_id, [.OnChannelOpenInit err] =>
    match err with
    | some e => (.error (.IbcAppCallbackFailed e), host)
    | none =>
      let host' := hostCommit host (channelPath s.port_id channel_id) (.channel s.channel)
      let host'' := hostCommit host' (nextSequenceSendPath s.port_id channel_id) (.nat 1)
      let host''' := hostCommit host'' (nextSequenceRecvPath s.port_id channel_id) (.nat 1)
      let host'''' := hostCommit host''' (nextSequenceAckPath s.port_id channel_id) (.nat 1)
      (.ok (.right ([.ChannelOpenInit s.port_id channel_id], .Empty)), host'''')
  | _, _ => (.error .UnexpectedAction, host)

/-- Modelled from the spec: the running phase of `ChannelOpenTry` (§3.4). -/
inductive ChanOpenTryPhase where
  | Init
  | VerifyingMembership
  | CallbackCalled (channel_id : List Char)
deriving DecidableEq, Repr

/-- Modelled from the spec: the `ChannelOpenTry` state (§3.4). -/
structure ChannelOpenTry where
  port_id : List Char
  channel : VmChannelEnd
  counterparty_version : String
  proof_init : List Nat
  proof_height : Height
  phase : ChanOpenTryPhase
deriving DecidableEq, Repr

/-- Modelled from the spec: `ChannelOpenTry::process` — the connection's
version features must admit the ordering, the counterparty must prove its
`Init` channel end, the IBC-app callback runs, then the `TryOpen` end and
sequence counters are committed (§4.2). -/
def ChannelOpenTry.process (s : ChannelOpenTry) (host : IbcHostState)
    (resp : List IbcResponse) :
    Except IbcError (Either (ChannelOpenTry × IbcAction) (List IbcEvent × IbcVmResponse)) ×
      IbcHostState :=
  match s.phase, resp with
  | .Init, [.Empty] =>
    match s.channel.connection_hops with
    | [connectionId] =>
      match hostRead host (connectionPath connectionId) with
      | some (.connection conn) =>
        if orderingSupported conn s.channel.ordering then
          match s.channel.counterparty_channel_id with
          | some counterpartyChannelId =>
            let expected : VmChannelEnd :=
              { state := .Init
                ordering := s.channel.ordering
                counterparty_port_id := s.port_id
                counterparty_channel_id := none
                connection_hops :=
                  match conn.counterparty_connection_id with
                  | some c => [c]
                  | none => []
                version := s.counterparty_version }
            (.ok (.left ({ s with phase := .VerifyingMembership },
              .Query (conn.client_id, [.VerifyMembership s.proof_height 0 0
                s.proof_init
                ((channelPath s.channel.counterparty_port_id counterpartyChannelId).map
                  Char.toNat)
                (vmChannelEndBytes expected)]))), host)
          | none => (.error (.ChannelNotFound []), host)
        else (.error (.UnsupportedFeatureInVersion s.channel.ordering), host)
      | _ => (.error (.ConnectionNotFound connectionId), host)
    | _ => (.error .UnexpectedAction, host)
  | .VerifyingMembership, [.VerifyMembership valid] =>
    if valid then
      match s.channel.connection_hops with
      | [connectionId] =>
        let (channel_id, host') := nextChannelIdentifier host
        (.ok (.left ({ s with phase := .CallbackCalled channel_id },
          .Write [.OnChannelOpenTry s.channel.ordering connectionId channel_id
            (s.channel.counterparty_channel_id.getD [])
            s.channel.version s.counterparty_version])), host')
      | _ => (.error .UnexpectedAction, host)
    else (.error .MembershipVerificationFailure, host)
  | .CallbackCalled channel_id, [.OnChannelOpenTry err] =>
    match err with
    | some e => (.error (.IbcAppCallbackFailed e), host)
    | none =>
      let host' := hostCommit host (channelPath s.port_id channel_id)
        (.channel { s.channel with state := .TryOpen })
      let host'' := hostCommit host' (nextSequenceSendPath s.port_id channel_id) (.nat 1)
      let host''' := hostCommit host'' (nextSequenceRecvPath s.port_id channel_id) (.nat 1)
      let host'''' := hostCommit host''' (nextSequenceAckPath s.port_id channel_id) (.nat 1)
      (.ok (.right ([.ChannelOpenTry s.port_id channel_id], .Empty)), host'''')
  | _, _ => (.error .UnexpectedAction, host)

/-- Modelled from the spec: the running phase of `ChannelOpenAck` (§3.4). -/
inductive ChanOpenAckPhase where
  | Init
  | VerifyingMembership
  | CallbackCalled
deriving DecidableEq, Repr

/-- Modelled from the spec: the `ChannelOpenAck` state (§3.4); the
counterparty channel id arrives as a plain string, as in
`IbcMsg::OnChannelOpenAck` (ibc-vm-rs lines 400–404). -/
structure ChannelOpenAck where
  port_id : List Char
  channel_id : List Char
  counterparty_channel_id : String
  counterparty_version : String
  proof_try : List Nat
  proof_height : Height
  phase : ChanOpenAckPhase
deriving DecidableEq, Repr

/-- Modelled from the spec: `ChannelOpenAck::process` — the local end must be
`Init`, the counterparty must prove a `TryOpen` end, the IBC-app callback
runs, then the local end opens with the counterparty's channel id and
version (§4.2, §4.7). -/
def ChannelOpenAck.process (s : ChannelOpenAck) (host : IbcHostState)
    (resp : List IbcResponse) :
    Except IbcError (Either (ChannelOpenAck × IbcAction) (List IbcEvent × IbcVmResponse)) ×
      IbcHostState :=
  match s.phase, resp with
  | .Init, [.Empty] =>
    match hostRead host (channelPath s.port_id s.channel_id) with
    | some (.channel chan) =>
      if chan.state = ChannelState.Init then
        match chan.connection_hops with
        | [connectionId] =>
          match hostRead host (connectionPath connectionId) with
          | some (.connection conn) =>
            let expected : VmChannelEnd :=
              { state := .TryOpen
                ordering := chan.ordering
                counterparty_port_id := s.port_id
                counterparty_channel_id := some s.channel_id
                connection_hops :=
                  match conn.counterparty_connection_id with
                  | some c => [c]
                  | none => []
                version := s.counterparty_version }
            (.ok (.left ({ s with phase := .VerifyingMembership },
              .Query (conn.client_id, [.VerifyMembership s.proof_height 0 0
                s.proof_try
                ((channelPath chan.counterparty_port_id
                  s.counterparty_channel_id.toList).map Char.toNat)
                (vmChannelEndBytes expected)]))), host)
          | _ => (.error (.ConnectionNotFound connectionId), host)
        | _ => (.error .UnexpectedAction, host)
      else (.error (.IncorrectChannelState chan.state .Init), host)
    | _ => (.error (.ChannelNotFound s.channel_id), host)
  | .VerifyingMembership, [.VerifyMembership valid] =>
    if valid then
      (.ok (.left ({ s with phase := .CallbackCalled },
        .Write [.OnChannelOpenAck s.channel_id s.counterparty_channel_id
          s.counterparty_version])), host)
    else (.error .MembershipVerificationFailure, host)
  | .CallbackCalled, [.OnChannelOpenAck err] =>
    match err with
    | some e => (.error (.IbcAppCallbackFailed e), host)
    | none =>
      match hostRead host (channelPath s.port_id s.channel_id) with
      | some (.channel chan) =>
        let host' := hostCommit host (channelPath s.port_id s.channel_id)
          (.channel { chan with
            state := .Open
            counterparty_channel_id := some s.counterparty_channel_id.toList
            version := s.counterparty_version })
        (.ok (.right ([.ChannelOpenAck s.port_id s.channel_id], .Empty)), host')
      | _ => (.error (.ChannelNotFound s.channel_id), host)
  | _, _ => (.error .UnexpectedAction, host)

/-- Modelled from the spec: the running phase of `ChannelOpenConfirm` (§3.4). -/
inductive ChanOpenConfirmPhase where
  | Init
  | VerifyingMembership
  | CallbackCalled
deriving DecidableEq, Repr

/-- Modelled from the spec: the `ChannelOpenConfirm` state (§3.4). -/
structure ChannelOpenConfirm where
  port_id : List Char
  channel_id : List Char
  proof_ack : List Nat
  proof_height : Height
  phase : ChanOpenConfirmPhase
deriving DecidableEq, Repr

/-- Modelled from the spec: `ChannelOpenConfirm::process` — the local end
must be `TryOpen`, the counterparty must prove an `Open` end, the IBC-app
callback runs, then the local end opens (§4.2, §4.7). -/
def ChannelOpenConfirm.process (s : ChannelOpenConfirm) (host : IbcHostState)
    (resp : List IbcResponse) :
    Except IbcError (Either (ChannelOpenConfirm × IbcAction) (List IbcEvent × IbcVmResponse)) ×
      IbcHostState :=
  match s.phase, resp with
  | .Init, [.Empty] =>
    match hostRead host (channelPath s.port_id s.channel_id) with
    | some (.channel chan) =>
      if chan.state = ChannelState.TryOpen then
        match chan.connection_hops with
        | [connectionId] =>
          match hostRead host (connectionPath connectionId) with
          | some (.connection conn) =>
            let expected : VmChannelEnd :=
              { state := .Open
                ordering := chan.ordering
                counterparty_port_id := s.port_id
                counterparty_channel_id := some s.channel_id
                connection_hops :=
                  match conn.counterparty_connection_id with
                  | some c => [c]
                  | none => []
                version := chan.version }
            (.ok (.left ({ s with phase := .VerifyingMembership },
              .Query (conn.client_id, [.VerifyMembership s.proof_height 0 0
                s.proof_ack
                ((channelPath chan.counterparty_port_id
                  (chan.counterparty_channel_id.getD [])).map Char.toNat)
                (vmChannelEndBytes expected)]))), host)
          | _ => (.error (.ConnectionNotFound connectionId), host)
        | _ => (.error .UnexpectedAction, host)
      else (.error (.IncorrectChannelState chan.state .TryOpen), host)
    | _ => (.error (.ChannelNotFound s.channel_id), host)
  | .VerifyingMembership, [.VerifyMembership valid] =>
    if valid then
      (.ok (.left ({ s with phase := .CallbackCalled },
        .Write [.OnChannelOpenConfirm s.channel_id])), host)
    else (.error .MembershipVerificationFailure, host)
  | .CallbackCalled, [.OnChannelOpenConfirm err] =>
    match err with
    | some e => (.error (.IbcAppCallbackFailed e), host)
    | none =>
      match hostRead host (channelPath s.port_id s.channel_id) with
      | some (.channel chan) =>
        let host' := hostCommit host (channelPath s.port_id s.channel_id)
          (.channel { chan with state := .Open })
        (.ok (.right ([.ChannelOpenConfirm s.port_id s.channel_id], .Empty)), host')
      | _ => (.error (.ChannelNotFound s.channel_id), host)
  | _, _ => (.error .UnexpectedAction, host)

/-- Modelled from the spec: the running phase of `SendPacket` (§3.4). -/
inductive SendPacketPhase where
  | Init
  | LatestHeightFetched (client_id : Nat)
  | TimestampFetched (counterpartyHeight : Height)
deriving DecidableEq, Repr

/-- Modelled from the spec: the `SendPacket` state (§3.4, §4.2). -/
structure SendPacket where
  source_port : List Char
  source_channel : List Char
  timeout_height : Height
  timeout_timestamp : Nat
  data : List Nat
  phase : SendPacketPhase
deriving DecidableEq, Repr

/-- Modelled from the spec: `SendPacket::process` (§4.2) — the channel must
be `Open`; the timeout must lie in the counterparty's future
(`timeout_height > current_height(counterparty)` OR
`timeout_timestamp > current_time(counterparty)`, else `ZeroTimeout`);
`next_sequence_send` is loaded and incremented, and
`sha256(canonical(packet))` is committed at the commitment path. -/
def SendPacket.process (s : SendPacket) (host : IbcHostState)
    (resp : List IbcResponse) :
    Except IbcError (Either (SendPacket × IbcAction) (List IbcEvent × IbcVmResponse)) ×
      IbcHostState :=
  match s.phase, resp with
  | .Init, [.Empty] =>
    match hostRead host (channelPath s.source_port s.source_channel) with
    | some (.channel chan) =>
      if chan.state = ChannelState.Open then
        match chan.connection_hops with
        | [connectionId] =>
          match hostRead host (connectionPath connectionId) with
          | some (.connection conn) =>
            (.ok (.left ({ s with phase := .LatestHeightFetched conn.client_id },
              .Query (conn.client_id, [.LatestHeight]))), host)
          | _ => (.error (.ConnectionNotFound connectionId), host)
        | _ => (.error .UnexpectedAction, host)
      else (.error (.IncorrectChannelState chan.state .Open), host)
    | _ => (.error (.ChannelNotFound s.source_channel), host)
  | .LatestHeightFetched client_id, [.LatestHeight h] =>
    (.ok (.left ({ s with phase := .TimestampFetched h },
      .Query (client_id, [.TimestampAtHeight h]))), host)
  | .TimestampFetched counterpartyHeight, [.TimestampAtHeight t] =>
    if heightLt counterpartyHeight s.timeout_height || s.timeout_timestamp > t then
      match hostRead host (nextSequenceSendPath s.source_port s.source_channel),
            hostRead host (channelPath s.source_port s.source_channel) with
      | some (.nat sequence), some (.channel chan) =>
        let packet : Packet :=
          { sequence := sequence
            source_port := s.source_port
            source_channel := s.source_channel
            destination_port := chan.counterparty_port_id
            destination_channel := chan.counterparty_channel_id.getD []
            data := s.data
            timeout_height := s.timeout_height
            timeout_timestamp := s.timeout_timestamp }
        let host' := hostCommit host (nextSequenceSendPath s.source_port s.source_channel)
          (.nat (sequence + 1))
        let host'' := hostCommit host'
          (commitmentPath s.source_port s.source_channel sequence)
          (.bytes (sha256Model (packetCanonical packet)))
        (.ok (.right ([.SendPacket sequence], .SendPacket sequence)), host'')
      | _, _ => (.error .UnexpectedAction, host)
    else (.error .ZeroTimeout, host)
  | _, _ => (.error .UnexpectedAction, host)

/-- Modelled from the spec: the running phase of `RecvPacket` (§3.4). -/
inductive RecvPacketPhase where
  | Init
  | VerifyingMembership
  | CallbackCalled
deriving DecidableEq, Repr

/-- Modelled from the spec: the `RecvPacket` state (§3.4); `intent`
distinguishes the union intent extension (§4.2 Intent packets), whose
`maker`-attested path replaces the proof step. -/
structure RecvPacket where
  packet : Packet
  proof_commitment : List Nat
  proof_height : Height
  intent : Bool
  maker : List Nat
  maker_msg : List Nat
  phase : RecvPacketPhase
deriving DecidableEq, Repr

/-- Modelled from the spec: `RecvPacket::process` (§4.2) — source
port/channel must match the channel's counterparty; the packet must not be
timed out locally; ordered channels require the running receive sequence
(spec flags the exact failure, scenario S3: an out-of-order sequence fails
the step), unordered channels short-circuit to a no-op success when the
receipt exists (scenario S2); intent packets skip the membership proof but
are forbidden on ordered channels; the app callback's acks are committed and
the receipt written (unordered) or the sequence bumped (ordered). -/
def RecvPacket.process (s : RecvPacket) (host : IbcHostState)
    (resp : List IbcResponse) :
    Except IbcError (Either (RecvPacket × IbcAction) (List IbcEvent × IbcVmResponse)) ×
      IbcHostState :=
  match s.phase, resp with
  | .Init, [.Empty] =>
    match hostRead host (channelPath s.packet.destination_port s.packet.destination_channel) with
    | some (.channel chan) =>
      if chan.state = ChannelState.Open then
        if s.packet.source_port ≠ chan.counterparty_port_id then
          (.error (.SourcePortMismatch s.packet.source_port chan.counterparty_port_id), host)
        else if s.packet.source_channel ≠ chan.counterparty_channel_id.getD [] then
          (.error (.SourceChannelMismatch s.packet.source_channel
            (chan.counterparty_channel_id.getD [])), host)
        else if (!heightIsZero s.packet.timeout_height &&
                  !heightLt host.curHeight s.packet.timeout_height) ||
                (s.packet.timeout_timestamp ≠ 0 &&
                  s.packet.timeout_timestamp ≤ host.curTimestamp) then
          (.error .TimedOutPacket, host)
        else if s.intent && chan.ordering == Order.Ordered then
          (.error .IntentOrderedPacket, host)
        else
          match chan.ordering with
          | .Ordered =>
            match hostRead host (nextSequenceRecvPath s.packet.destination_port
                s.packet.destination_channel) with
            | some (.nat nextRecv) =>
              if s.packet.sequence = nextRecv then
                if s.intent then
                  (.ok (.left ({ s with phase := .CallbackCalled },
                    .Write [.OnRecvIntentPacket s.packet s.maker s.maker_msg])), host)
                else
                  recvPacketQueryCommitment s host chan
              else (.error .UnexpectedAction, host)
            | _ => (.error .UnexpectedAction, host)
          | _ =>
            if (hostRead host (receiptPath s.packet.destination_port
                s.packet.destination_channel s.packet.sequence)).isSome then
              (.ok (.right ([], .Empty)), host)
            else if s.intent then
              (.ok (.left ({ s with phase := .CallbackCalled },
                .Write [.OnRecvIntentPacket s.packet s.maker s.maker_msg])), host)
            else
              recvPacketQueryCommitment s host chan
      else (.error (.IncorrectChannelState chan.state .Open), host)
    | _ => (.error (.ChannelNotFound s.packet.destination_channel), host)
  | .VerifyingMembership, [.VerifyMembership valid] =>
    if valid then
      (.ok (.left ({ s with phase := .CallbackCalled },
        .Write [.OnRecvPacket s.packet s.maker s.maker_msg])), host)
    else (.error .MembershipVerificationFailure, host)
  | .CallbackCalled, [.OnRecvPacket acks] =>
    recvPacketWriteAck s host acks
  | _, _ => (.error .UnexpectedAction, host)
where
  /-- Request the membership proof of the packet commitment on the
  counterparty at the header height (§4.2 RecvPacket step 4). -/
  recvPacketQueryCommitment (s : RecvPacket) (host : IbcHostState) (chan : VmChannelEnd) :
      Except IbcError (Either (RecvPacket × IbcAction) (List IbcEvent × IbcVmResponse)) ×
        IbcHostState :=
    match chan.connection_hops with
    | [connectionId] =>
      match hostRead host (connectionPath connectionId) with
      | some (.connection conn) =>
        (.ok (.left ({ s with phase := .VerifyingMembership },
          .Query (conn.client_id, [.VerifyMembership s.proof_height 0 0
            s.proof_commitment
            ((commitmentPath s.packet.source_port s.packet.source_channel
              s.packet.sequence).map Char.toNat)
            (sha256Model (packetCanonical s.packet))]))), host)
      | _ => (.error (.ConnectionNotFound connectionId), host)
    | _ => (.error .UnexpectedAction, host)
  /-- Commit the acks, write the receipt / bump the sequence, emit events
  (§4.2 RecvPacket steps 5–7). -/
  recvPacketWriteAck (s : RecvPacket) (host : IbcHostState) (acks : List (List Nat)) :
      Except IbcError (Either (RecvPacket × IbcAction) (List IbcEvent × IbcVmResponse)) ×
        IbcHostState :=
    let ack := acks.flatten
    if ack.isEmpty then (.error .EmptyAcknowledgement, host)
    else if (hostRead host (ackPath s.packet.destination_port
        s.packet.destination_channel s.packet.sequence)).isSome then
      (.error (.AcknowledgementExists s.packet.sequence), host)
    else
      match hostRead host (channelPath s.packet.destination_port
          s.packet.destination_channel) with
      | some (.channel chan) =>
        let host' := hostCommit host
          (ackPath s.packet.destination_port s.packet.destination_channel
            s.packet.sequence)
          (.bytes (sha256Model ack))
        match chan.ordering with
        | .Ordered =>
          match hostRead host' (nextSequenceRecvPath s.packet.destination_port
              s.packet.destination_channel) with
          | some (.nat nextRecv) =>
            let host'' := hostCommit host'
              (nextSequenceRecvPath s.packet.destination_port
                s.packet.destination_channel)
              (.nat (nextRecv + 1))
            (.ok (.right ([.RecvPacket s.packet.sequence,
              .WriteAcknowledgement s.packet.sequence ack], .Empty)), host'')
          | _ => (.error .UnexpectedAction, host)
        | _ =>
          let host'' := hostCommit host'
            (receiptPath s.packet.destination_port s.packet.destination_channel
              s.packet.sequence)
            (.nat 1)
          (.ok (.right ([.RecvPacket s.packet.sequence,
            .WriteAcknowledgement s.packet.sequence ack], .Empty)), host'')
      | _ => (.error (.ChannelNotFound s.packet.destination_channel), host)

/-- Modelled from the spec: the running phase of `AckPacket` (§3.4). -/
inductive AcknowledgementPhase where
  | Init
  | VerifyingMembership
  | CallbackCalled
deriving DecidableEq, Repr

/-- Modelled from the spec: the `Acknowledgement` state (§3.4). -/
structure Acknowledgement where
  packet : Packet
  ack : List Nat
  proof_acked : List Nat
  proof_height : Height
  relayer : List Nat
  phase : AcknowledgementPhase
deriving DecidableEq, Repr

/-- Modelled from the spec: `Acknowledgement::process` (§4.2) — the local
commitment must exist and match the re-computed one (else
`PacketCommitmentMismatch` with both values), the ack's membership on the
counterparty must be proven, then the commitment is deleted, the ack
sequence bumped on ordered channels, and `OnAcknowledgePacket` invoked. -/
def Acknowledgement.process (s : Acknowledgement) (host : IbcHostState)
    (resp : List IbcResponse) :
    Except IbcError (Either (Acknowledgement × IbcAction) (List IbcEvent × IbcVmResponse)) ×
      IbcHostState :=
  match s.phase, resp with
  | .Init, [.Empty] =>
    let expected := sha256Model (packetCanonical s.packet)
    match hostRead host (commitmentPath s.packet.source_port s.packet.source_channel
        s.packet.sequence) with
    | some (.bytes committed) =>
      if committed = expected then
        match hostRead host (channelPath s.packet.source_port s.packet.source_channel) with
        | some (.channel chan) =>
          match chan.connection_hops with
          | [connectionId] =>
            match hostRead host (connectionPath connectionId) with
            | some (.connection conn) =>
              (.ok (.left ({ s with phase := .VerifyingMembership },
                .Query (conn.client_id, [.VerifyMembership s.proof_height 0 0
                  s.proof_acked
                  ((ackPath s.packet.destination_port s.packet.destination_channel
                    s.packet.sequence).map Char.toNat)
                  (sha256Model s.ack)]))), host)
            | _ => (.error (.ConnectionNotFound connectionId), host)
          | _ => (.error .UnexpectedAction, host)
        | _ => (.error (.ChannelNotFound s.packet.source_channel), host)
      else (.error (.PacketCommitmentMismatch committed expected), host)
    | _ => (.error (.PacketCommitmentMismatch [] expected), host)
  | .VerifyingMembership, [.VerifyMembership valid] =>
    if valid then
      match hostRead host (channelPath s.packet.source_port s.packet.source_channel) with
      | some (.channel chan) =>
        let host' := hostDelete host
          (commitmentPath s.packet.source_port s.packet.source_channel
            s.packet.sequence)
        match chan.ordering with
        | .Ordered =>
          match hostRead host' (nextSequenceAckPath s.packet.source_port
              s.packet.source_channel) with
          | some (.nat nextAck) =>
            let host'' := hostCommit host'
              (nextSequenceAckPath s.packet.source_port s.packet.source_channel)
              (.nat (nextAck + 1))
            (.ok (.left ({ s with phase := .CallbackCalled },
              .Write [.OnAcknowledgePacket s.packet s.ack s.relayer])), host'')
          | _ => (.error .UnexpectedAction, host)
        | _ =>
          (.ok (.left ({ s with phase := .CallbackCalled },
            .Write [.OnAcknowledgePacket s.packet s.ack s.relayer])), host')
      | _ => (.error (.ChannelNotFound s.packet.source_channel), host)
    else (.error .MembershipVerificationFailure, host)
  | .CallbackCalled, [.OnAcknowledgePacket err] =>
    match err with
    | some e => (.error (.IbcAppCallbackFailed e), host)
    | none => (.ok (.right ([.AcknowledgePacket s.packet.sequence], .Empty)), host)
  | _, _ => (.error .UnexpectedAction, host)

/-- `IbcState` (ibc-vm-rs lines 262–278): the runnable VM states. -/
inductive IbcState where
  | CreateClient (s : CreateClient)
  | UpdateClient (s : UpdateClient)
  | ConnectionOpenInit (s : ConnectionOpenInit)
  | ConnectionOpenTry (s : ConnectionOpenTry)
  | ConnectionOpenAck (s : ConnectionOpenAck)
  | ConnectionOpenConfirm (s : ConnectionOpenConfirm)
  | ChannelOpenInit (s : ChannelOpenInit)
  | ChannelOpenTry (s : ChannelOpenTry)
  | ChannelOpenAck (s : ChannelOpenAck)
  | ChannelOpenConfirm (s : ChannelOpenConfirm)
  | SendPacket (s : SendPacket)
  | RecvPacket (s : RecvPacket)
  | AcknowledgePacket (s : Acknowledgement)
deriving DecidableEq, Repr

/-- The re-wrapping the `cast_either!` macro performs (ibc-vm-rs lines
280–289): a `Left` sub-state is wrapped back into the `IbcState` variant it
came from, a `Right` terminal result and an error pass through. -/
def castEither {σ : Type} (f : σ → IbcState) :
    Except IbcError (Either (σ × IbcAction) (List IbcEvent × IbcVmResponse)) × IbcHostState →
    Except IbcError (Either (IbcState × IbcAction) (List IbcEvent × IbcVmResponse)) × IbcHostState
  | (.ok (.left (sub, act)), h) => (.ok (.left (f sub, act)), h)
  | (.ok (.right r), h) => (.ok (.right r), h)
  | (.error e, h) => (.error e, h)

/-- `IbcState::process` (ibc-vm-rs lines 291–320): dispatch the datagram
state to its variant's `process`, with the host threaded explicitly
(`&mut T` in the source) and the responses from the previous round. -/
def IbcState.process (s : IbcState) (host : IbcHostState) (resp : List IbcResponse) :
    Except IbcError (Either (IbcState × IbcAction) (List IbcEvent × IbcVmResponse)) ×
      IbcHostState :=
  match s with
  | .CreateClient c => castEither IbcState.CreateClient (c.process host resp)
  | .UpdateClient c => castEither IbcState.UpdateClient (c.process host resp)
  | .ConnectionOpenInit c => castEither IbcState.ConnectionOpenInit (c.process host resp)
  | .ConnectionOpenTry c => castEither IbcState.ConnectionOpenTry (c.process host resp)
  | .ConnectionOpenAck c => castEither IbcState.ConnectionOpenAck (c.process host resp)
  | .ConnectionOpenConfirm c => castEither IbcState.ConnectionOpenConfirm (c.process host resp)
  | .ChannelOpenInit c => castEither IbcState.ChannelOpenInit (c.process host resp)
  | .ChannelOpenTry c => castEither IbcState.ChannelOpenTry (c.process host resp)
  | .ChannelOpenAck c => castEither IbcState.ChannelOpenAck (c.process host resp)
  | .ChannelOpenConfirm c => castEither IbcState.ChannelOpenConfirm (c.process host resp)
  | .SendPacket c => castEither IbcState.SendPacket (c.process host resp)
  | .RecvPacket c => castEither IbcState.RecvPacket (c.process host resp)
  | .AcknowledgePacket c => castEither IbcState.AcknowledgePacket (c.process host resp)

/-! ## Theorems -/

theorem parseNatCore_append (xs ys : List Char) (acc : Nat) :
    parseNatCore (xs ++ ys) acc =
      (parseNatCore xs acc).bind (fun a => parseNatCore ys a) := by
  induction xs generalizing acc with
  | nil => simp [parseNatCore]
  | cons c rest ih =>
    cases hd : digitVal c with
    | none => simp [parseNatCore, hd]
    | some d => simp [parseNatCore, hd, ih]

theorem digitVal_digitChar {d : Nat} (h : d < 10) :
    digitVal (Nat.digitChar d) = some d := by
  interval_cases d <;> decide

theorem parseNatCore_digitsRev : ∀ (n acc : Nat),
    parseNatCore (natToDigitsRev n).reverse acc =
      some (acc * 10 ^ (natToDigitsRev n).length + n) := by
  intro n
  induction n using Nat.strong_induction_on with
  | _ n ih =>
    intro acc
    match n with
    | 0 => simp [natToDigitsRev, parseNatCore]
    | m + 1 =>
      rw [natToDigitsRev, List.reverse_cons, parseNatCore_append,
        ih ((m + 1) / 10) (Nat.div_lt_self (Nat.succ_pos m) (by decide))]
      have hd : digitVal (Nat.digitChar ((m + 1) % 10)) = some ((m + 1) % 10) :=
        digitVal_digitChar (Nat.mod_lt _ (by decide))
      simp only [Option.some_bind, parseNatCore, hd, List.length_cons]
      rw [pow_succ, ← mul_assoc]
      simp only [Option.some.injEq]
      generalize acc * 10 ^ (natToDigitsRev ((m + 1) / 10)).length = A
      omega

theorem natToDigitsRev_ne_nil {n : Nat} (h : n ≠ 0) : natToDigitsRev n ≠ [] := by
  match n with
  | 0 => exact absurd rfl h
  | m + 1 => rw [natToDigitsRev]; exact List.cons_ne_nil _ _

theorem parseNat_displayNat (n : Nat) : parseNat (displayNat n) = some n := by
  rcases eq_or_ne n 0 with h | h
  · subst h; decide
  · unfold displayNat
    rw [if_neg h]
    unfold parseNat
    rw [if_neg (by simpa using natToDigitsRev_ne_nil h), parseNatCore_digitsRev]
    simp

theorem mem_natToDigitsRev (n : Nat) (c : Char) (h : c ∈ natToDigitsRev n) :
    ∃ d, d < 10 ∧ c = Nat.digitChar d := by
  revert h
  induction n using Nat.strong_induction_on with
  | _ n ih =>
    intro h
    cases n with
    | zero => simp [natToDigitsRev] at h
    | succ m =>
      rw [natToDigitsRev] at h
      rcases List.mem_cons.mp h with h | h
      · exact ⟨(m + 1) % 10, Nat.mod_lt _ (by decide), h⟩
      · exact ih _ (Nat.div_lt_self (Nat.succ_pos m) (by decide)) h

theorem hyphen_not_mem_displayNat (n : Nat) : '-' ∉ displayNat n := by
  unfold displayNat
  split
  · decide
  · intro h
    rw [List.mem_reverse] at h
    obtain ⟨d, hd, hc⟩ := mem_natToDigitsRev _ _ h
    interval_cases d <;> revert hc <;> decide

theorem splitOnce_append (xs ys : List Char) (sep : Char) (h : sep ∉ xs) :
    splitOnce (xs ++ sep :: ys) sep = some (xs, ys) := by
  induction xs with
  | nil => simp [splitOnce]
  | cons c rest ih =>
    have hc : c ≠ sep := fun hh => h (hh ▸ List.mem_cons_self c rest)
    have hr : sep ∉ rest := fun hh => h (List.mem_cons_of_mem _ hh)
    simp [splitOnce, hc, ih hr]

theorem heightFromStr_display (h : Height) :
    heightFromStr (heightDisplay h) = some h := by
  unfold heightDisplay heightFromStr
  rw [splitOnce_append _ _ _ (hyphen_not_mem_displayNat _)]
  simp [parseNat_displayNat]

/-- C10: parsing a displayed `QueryHeight` is a left inverse of display
exactly on the `Latest` and `Specific` variants: `"latest"` parses back to
`Latest` and `<rev>-<height>` parses back to `Specific`, while the displayed
`Finalized` (`"finalized"`) is rejected, since `from_str` only recognises
`"latest"` and height-formatted strings. -/
theorem queryHeight_fromStr_display (h : Height) :
    queryHeightFromStr (queryHeightDisplay QueryHeight.Latest) =
        some QueryHeight.Latest ∧
    queryHeightFromStr (queryHeightDisplay (QueryHeight.Specific h)) =
        some (QueryHeight.Specific h) ∧
    queryHeightFromStr (queryHeightDisplay QueryHeight.Finalized) = none := by
  refine ⟨by decide, ?_, by decide⟩
  have hne : heightDisplay h ≠ "latest".toList := by
    intro heq
    have hm : '-' ∈ heightDisplay h := by
      unfold heightDisplay
      exact List.mem_append.mpr (Or.inr (List.mem_cons_self _ _))
    rw [heq] at hm
    revert hm
    decide
  simp only [queryHeightDisplay, queryHeightFromStr]
  rw [if_neg hne, heightFromStr_display]
  rfl

/-- C7: the process-wide defaults — the default merkle prefix's `key_prefix`
is the byte string `"ibc"`, and the default supported connection version set
is the single version `"1"` whose feature set is exactly `{Unordered}`. -/
theorem ibc_defaults :
    DEFAULT_MERKLE_PREFIX.keyPrefix = "ibc".toList.map Char.toNat ∧
    DEFAULT_IBC_VERSION.map Version.identifier = ["1"] ∧
    DEFAULT_IBC_VERSION.map Version.features = [[Order.Unordered]] := by
  decide

/-- C5: on a `ConnectionEnd` with validated identifiers (client id
`cometbls-1`, counterparty client id `08-wasm-2`, counterparty connection id
absent), the spec-side numeric suffixes are 1, 2 and 0 — but the encoder
panics (`none`): `strip_suffix(char::is_numeric)` removes only the final
digit, and `"cometbls-".parse::<u32>()` fails, so the `.unwrap()` aborts
instead of producing the claimed record. -/
theorem connection_end_encode_diverges :
    mkSolIBCConnection exampleConnectionEnd = none ∧
    stripSuffixNumeric exampleConnectionEnd.client_id = some "cometbls-".toList ∧
    parseU32 "cometbls-".toList = none ∧
    numericSuffix exampleConnectionEnd.client_id = some 1 ∧
    numericSuffix exampleConnectionEnd.counterparty.client_id = some 2 ∧
    numericSuffix "connection-0".toList = some 0 := by
  decide

/-- C1: `IbcState::process` is deterministic — two runs on the same datagram
state, with hosts in identical starting state and the same responses, produce
the same result: the same emitted events / requested host action and the same
final host KV contents. -/
theorem ibcState_process_deterministic (s : IbcState) (host₁ host₂ : IbcHostState)
    (resp₁ resp₂ : List IbcResponse) (hh : host₁ = host₂) (hr : resp₁ = resp₂) :
    IbcState.process s host₁ resp₁ = IbcState.process s host₂ resp₂ := by
  subst hh
  subst hr
  rfl

theorem ibcState_process_deterministic_witness :
    IbcState.process
      (.ConnectionOpenInit
        { client_id := 0, counterparty_client_id := 1, delay_period := 0,
          phase := .Init })
      { kv := [], clients := [(0, [7])], nextClientSeq := 1,
        nextConnectionSeq := 0, nextChannelSeq := 0,
        curHeight := { revision_number := 1, revision_height := 10 },
        curTimestamp := 1000, callerAddr := [1, 2] }
      [.Empty] =
    IbcState.process
      (.ConnectionOpenInit
        { client_id := 0, counterparty_client_id := 1, delay_period := 0,
          phase := .Init })
      { kv := [], clients := [(0, [7])], nextClientSeq := 1,
        nextConnectionSeq := 0, nextChannelSeq := 0,
        curHeight := { revision_number := 1, revision_height := 10 },
        curTimestamp := 1000, callerAddr := [1, 2] }
      [.Empty] :=
  ibcState_process_deterministic _ _ _ _ _ rfl rfl

/-- C2: the EVM submitter classifies `GasPriceTooHigh` exactly when the
fetched gas price exceeds a configured `max_gas_price`, and resolves it to
`Seq([Defer(6s), Effect(same messages)])`; an `EmptyRevert`, or an `OutOfGas`
(a JSON-RPC provider error whose message contains
`"insufficient funds for gas * price + value"`), resolves to
`Seq([Defer(12s), Effect(same messages)])`. -/
theorem evm_retry_classification (maxGas gasPrice : Nat) (chainId : String)
    (m0 : Msg) (rest : List Msg) (errMsg : String) :
    (checkGasPrice (some maxGas) gasPrice =
        some (TxSubmitError.GasPriceTooHigh maxGas gasPrice) ↔ gasPrice > maxGas) ∧
    ((∃ e, checkGasPrice (some maxGas) gasPrice = some e) ↔ gasPrice > maxGas) ∧
    checkGasPrice none gasPrice = none ∧
    (classifySendError (.jsonRpc errMsg) = some .OutOfGas ↔
      containsSubstr errMsg.toList
        "insufficient funds for gas * price + value".toList = true) ∧
    (∃ e, rewrapMsg chainId (m0 :: rest) = some e ∧ effectMsgs e = m0 :: rest ∧
      evmSendDispatch chainId (m0 :: rest)
          (some (.error (.GasPriceTooHigh maxGas gasPrice))) =
        some (.op (.Seq [.Defer 6, .Effect e])) ∧
      evmSendDispatch chainId (m0 :: rest) (some (.error .OutOfGas)) =
        some (.op (.Seq [.Defer 12, .Effect e])) ∧
      evmSendDispatch chainId (m0 :: rest) (some (.error .EmptyRevert)) =
        some (.op (.Seq [.Defer 12, .Effect e]))) := by
  refine ⟨?_, ?_, rfl, ?_, ?_⟩
  · simp only [checkGasPrice]
    split_ifs with hgt
    · simp [hgt]
    · simp [hgt]
  · simp only [checkGasPrice]
    split_ifs with hgt
    · simp [hgt]
    · simp [hgt]
  · simp only [classifySendError]
    split_ifs with hc
    · exact iff_of_true rfl hc
    · exact iff_of_false (by simp) hc
  · cases rest with
    | nil =>
      refine ⟨.Single ⟨chainId, m0⟩, ?_, rfl, rfl, rfl, rfl⟩
      simp [rewrapMsg]
    | cons b rest' =>
      have hlen : (m0 :: b :: rest').length > 1 := by
        simp [List.length_cons]
      have hrw : rewrapMsg chainId (m0 :: b :: rest') =
          some (.Batch ⟨chainId, m0 :: b :: rest'⟩) := by
        unfold rewrapMsg
        rw [if_pos hlen]
      exact ⟨.Batch ⟨chainId, m0 :: b :: rest'⟩, hrw, rfl,
        by simp [evmSendDispatch, hrw], by simp [evmSendDispatch, hrw],
        by simp [evmSendDispatch, hrw]⟩

theorem processMulticallResults_allSuccess
    (decodeIbcErr : List Nat → Option KnownRevert)
    (rs : List (MulticallResult × Msg)) (h : ∀ p ∈ rs, p.1.success = true) :
    processMulticallResults decodeIbcErr rs =
      .ok (rs.map fun p => (p.2, LogKind.okLogged)) := by
  induction rs with
  | nil => rfl
  | cons p rest ih =>
    have hp : p.1.success = true := h p (List.mem_cons_self _ _)
    have hrest := ih (fun q hq => h q (List.mem_cons_of_mem _ hq))
    cases p with
    | mk r m =>
      have hp' : r.success = true := hp
      simp [processMulticallResults, hp', hrest, Except.map]

/-- C3: in a multicall batch where one message reverts with a reason the IBC
error ABI decodes while all the others succeed, the per-message loop logs the
failure as well-known (and the successes as successes) without aborting, so
the whole attempt returns `Ok(())` and the batch's outer op resolves to
`Noop` — nothing is re-enqueued. -/
theorem evm_multicall_partial_failure (decodeIbcErr : List Nat → Option KnownRevert)
    (chainId : String) (msgs : List Msg)
    (rs1 rs2 : List (MulticallResult × Msg)) (failRes : MulticallResult)
    (failMsg : Msg)
    (h1 : ∀ p ∈ rs1, p.1.success = true) (h2 : ∀ p ∈ rs2, p.1.success = true)
    (hf : failRes.success = false) (k : KnownRevert)
    (hk : decodeIbcErr failRes.returnData = some k) :
    processMulticallResults decodeIbcErr (rs1 ++ (failRes, failMsg) :: rs2) =
      .ok ((rs1.map fun p => (p.2, LogKind.okLogged)) ++
        (failMsg, LogKind.failedWellKnown) ::
          (rs2.map fun p => (p.2, LogKind.okLogged))) ∧
    evmSendDispatch chainId msgs (some (.ok ())) = some (.op .Noop) := by
  refine ⟨?_, rfl⟩
  induction rs1 with
  | nil =>
    simp [processMulticallResults, hf, hk,
      processMulticallResults_allSuccess decodeIbcErr rs2 h2, Except.map]
  | cons p rest ih =>
    have hp : p.1.success = true := h1 p (List.mem_cons_self _ _)
    have ih' := ih (fun q hq => h1 q (List.mem_cons_of_mem _ hq))
    cases p with
    | mk r m =>
      have hp' : r.success = true := hp
      simp [processMulticallResults, hp', ih', Except.map]

theorem evm_multicall_partial_failure_witness :
    processMulticallResults (fun bs => if bs = [1] then some ⟨7⟩ else none)
      [({ success := true, returnData := [] }, { name := "msg1", payload := [] }),
        ({ success := false, returnData := [1] }, { name := "msg2", payload := [] }),
        ({ success := true, returnData := [] }, { name := "msg3", payload := [] })] =
      .ok [({ name := "msg1", payload := [] }, LogKind.okLogged),
        ({ name := "msg2", payload := [] }, LogKind.failedWellKnown),
        ({ name := "msg3", payload := [] }, LogKind.okLogged)] ∧
    evmSendDispatch "1" [{ name := "msg1", payload := [] }] (some (.ok ())) =
      some (.op .Noop) :=
  evm_multicall_partial_failure (fun bs => if bs = [1] then some ⟨7⟩ else none)
    "1" [{ name := "msg1", payload := [] }]
    [({ success := true, returnData := [] }, { name := "msg1", payload := [] })]
    [({ success := true, returnData := [] }, { name := "msg3", payload := [] })]
    { success := false, returnData := [1] } { name := "msg2", payload := [] }
    (by decide) (by decide) rfl ⟨7⟩ (by decide)

/-- C4: the Cosmos submitter resolves `ChannelError::ErrRedundantTx` as
success (`Noop`); `SdkError::ErrWrongSequence` and a simulation failure whose
message contains `"account sequence mismatch"` re-enqueue the same
`SubmitTransaction` call as-is; capability errors,
`IbcWasmError::ErrInvalidChecksum` and `ClientError::ErrClientNotFound` — and
only those — are reported with the reserved fatal JSON-RPC code, every other
error with code `-1`. -/
theorem cosmos_sdk_error_classification (pluginName : String)
    (msgs : List IbcMessage) (m : String) :
    doSendDispatch pluginName msgs
        (some (broadcastResultAdjust (.error (.Tx (.ChannelError .ErrRedundantTx))))) =
      .ok .noop ∧
    (broadcastResultAdjust (.error (.Tx (.SdkError .ErrWrongSequence))) =
        .error (.AccountSequenceMismatch none) ∧
      doSendDispatch pluginName msgs
          (some (.error (.AccountSequenceMismatch none))) =
        .ok (.callSubmitTransaction pluginName msgs)) ∧
    (containsSubstr m.toList "account sequence mismatch".toList = true →
      broadcastResultAdjust (.error (.SimulateTx m)) =
          .error (.AccountSequenceMismatch (some m)) ∧
        doSendDispatch pluginName msgs
            (some (broadcastResultAdjust (.error (.SimulateTx m)))) =
          .ok (.callSubmitTransaction pluginName msgs)) ∧
    (∀ e : BroadcastTxCommitError,
      (callErrorCode e = .fatalReserved ↔
        (∃ ce, e = .Tx (.CapabilityError ce)) ∨
        e = .Tx (.IbcWasmError .ErrInvalidChecksum) ∨
        e = .Tx (.ClientError .ErrClientNotFound)) ∧
      (callErrorCode e = .fatalReserved ∨ callErrorCode e = .numeric (-1))) := by
  refine ⟨rfl, ⟨rfl, rfl⟩, ?_, ?_⟩
  · intro hc
    have hadj : broadcastResultAdjust (.error (.SimulateTx m)) =
        .error (.AccountSequenceMismatch (some m)) := by
      simp only [broadcastResultAdjust]
      rw [if_pos hc]
    exact ⟨hadj, by rw [hadj]; rfl⟩
  · intro e
    cases e with
    | Tx te =>
      cases te with
      | ChannelError ce =>
        refine ⟨iff_of_false (fun h => nomatch h) ?_, Or.inr rfl⟩
        rintro (⟨x, hh⟩ | hh | hh) <;> simp at hh
      | SdkError se =>
        refine ⟨iff_of_false (fun h => nomatch h) ?_, Or.inr rfl⟩
        rintro (⟨x, hh⟩ | hh | hh) <;> simp at hh
      | IbcWasmError we =>
        cases we with
        | ErrInvalidChecksum =>
          exact ⟨iff_of_true rfl (Or.inr (Or.inl rfl)), Or.inl rfl⟩
        | otherIbcWasmError c =>
          refine ⟨iff_of_false (fun h => nomatch h) ?_, Or.inr rfl⟩
          rintro (⟨x, hh⟩ | hh | hh) <;> simp at hh
      | ClientError cle =>
        cases cle with
        | ErrClientNotFound =>
          exact ⟨iff_of_true rfl (Or.inr (Or.inr rfl)), Or.inl rfl⟩
        | otherClientError c =>
          refine ⟨iff_of_false (fun h => nomatch h) ?_, Or.inr rfl⟩
          rintro (⟨x, hh⟩ | hh | hh) <;> simp at hh
      | CapabilityError ce =>
        exact ⟨iff_of_true rfl (Or.inl ⟨ce, rfl⟩), Or.inl rfl⟩
      | otherCosmosError cs c =>
        refine ⟨iff_of_false (fun h => nomatch h) ?_, Or.inr rfl⟩
        rintro (⟨x, hh⟩ | hh | hh) <;> simp at hh
    | QueryLatestHeight msg =>
      refine ⟨iff_of_false (fun h => nomatch h) ?_, Or.inr rfl⟩
      rintro (⟨x, hh⟩ | hh | hh) <;> simp at hh
    | BroadcastTxSync msg =>
      refine ⟨iff_of_false (fun h => nomatch h) ?_, Or.inr rfl⟩
      rintro (⟨x, hh⟩ | hh | hh) <;> simp at hh
    | Inclusion msg =>
      refine ⟨iff_of_false (fun h => nomatch h) ?_, Or.inr rfl⟩
      rintro (⟨x, hh⟩ | hh | hh) <;> simp at hh
    | SimulateTx msg =>
      refine ⟨iff_of_false (fun h => nomatch h) ?_, Or.inr rfl⟩
      rintro (⟨x, hh⟩ | hh | hh) <;> simp at hh
    | AccountSequenceMismatch st =>
      refine ⟨iff_of_false (fun h => nomatch h) ?_, Or.inr rfl⟩
      rintro (⟨x, hh⟩ | hh | hh) <;> simp at hh
    | OutOfGas =>
      refine ⟨iff_of_false (fun h => nomatch h) ?_, Or.inr rfl⟩
      rintro (⟨x, hh⟩ | hh | hh) <;> simp at hh

/-- C6, counterexample: when every post-broadcast transaction query fails,
the inclusion-await loop of `broadcast_tx_commit` performs 7 transaction
queries — not at most 6 — before giving up with an `Inclusion` error (the
loop retries while the counter `i` is at most 5, so queries run at
`i = 0, …, 6`). -/
theorem broadcast_inclusion_seven_queries :
    broadcastInclusionQueries (fun _ => .error "not found") 0 = 7 ∧
    ¬ broadcastInclusionQueries (fun _ => .error "not found") 0 ≤ 6 ∧
    broadcastInclusionLoop (fun _ => .error "not found")
        (fun cs c => .otherCosmosError cs c) [0] 0 =
      .error (.Inclusion "not found") := by
  have h7 : broadcastInclusionQueries (fun _ => .error "not found") 0 = 7 := by
    simp [broadcastInclusionQueries]
  refine ⟨h7, by omega, ?_⟩
  simp [broadcastInclusionLoop]

theorem broadcastInclusionQueries_le (txQuery : Nat → Except String TxResultMeta) :
    ∀ d i, 6 ≤ i + d → broadcastInclusionQueries txQuery i ≤ d + 1 := by
  intro d
  induction d with
  | zero =>
    intro i hi
    have hgt : i > 5 := by omega
    rw [broadcastInclusionQueries]
    cases htq : txQuery i with
    | ok tx => simp
    | error msg => simp [hgt]
  | succ d ih =>
    intro i hi
    rw [broadcastInclusionQueries]
    cases htq : txQuery i with
    | ok tx => simp
    | error msg =>
      by_cases hgt : i > 5
      · simp [hgt]
      · simp only [hgt, dite_false]
        have := ih (i + 1) (by omega)
        omega

theorem broadcastInclusionLoop_allFail (txQuery : Nat → Except String TxResultMeta)
    (mkSdkErr : String → Nat → CosmosSdkError) (txHash : List Nat)
    (hfail : ∀ j, ∃ msg, txQuery j = .error msg) :
    ∀ d i, 6 ≤ i + d →
      ∃ msg, broadcastInclusionLoop txQuery mkSdkErr txHash i =
        .error (.Inclusion msg) := by
  intro d
  induction d with
  | zero =>
    intro i hi
    obtain ⟨msg, hmsg⟩ := hfail i
    have hgt : i > 5 := by omega
    rw [broadcastInclusionLoop, hmsg]
    exact ⟨msg, by simp [hgt]⟩
  | succ d ih =>
    intro i hi
    obtain ⟨msg, hmsg⟩ := hfail i
    rw [broadcastInclusionLoop, hmsg]
    by_cases hgt : i > 5
    · exact ⟨msg, by simp [hgt]⟩
    · simp only [hgt, dite_false]
      exact ih (i + 1) (by omega)

/-- C6, as amended: after broadcasting, `broadcast_tx_commit` awaits
inclusion by polling the block height forward, querying the transaction at
most 7 times (one initial query and six retries; it gives up with an
`Inclusion` error when a query fails with the retry counter above 5), and on
successful inclusion (result code 0) returns the pair
`(tx_hash, gas_used)`. -/
theorem broadcast_inclusion_bounds (txQuery : Nat → Except String TxResultMeta)
    (mkSdkErr : String → Nat → CosmosSdkError) (txHash : List Nat) :
    broadcastInclusionQueries txQuery 0 ≤ 7 ∧
    (∀ tx, txQuery 0 = .ok tx → tx.code = 0 →
      broadcastInclusionLoop txQuery mkSdkErr txHash 0 = .ok (txHash, tx.gasUsed)) ∧
    ((∀ j, ∃ msg, txQuery j = .error msg) →
      ∃ msg, broadcastInclusionLoop txQuery mkSdkErr txHash 0 =
        .error (.Inclusion msg)) := by
  refine ⟨broadcastInclusionQueries_le txQuery 6 0 (by omega), ?_, ?_⟩
  · intro tx htx hcode
    rw [broadcastInclusionLoop, htx]
    simp [hcode]
  · intro hfail
    exact broadcastInclusionLoop_allFail txQuery mkSdkErr txHash hfail 6 0 (by omega)

theorem runPass_mapM_enumFrom (fromRawDatagram : RawDatagram → Except String IbcMessage)
    (pluginName chainId : String) :
    ∀ (msgs : List QueueOp) (n : Nat),
      (∀ op ∈ msgs, datagramConvertible fromRawDatagram chainId op = true) →
      (List.enumFrom n msgs).mapM (runPassEntry fromRawDatagram pluginName chainId) =
        .ok ((List.enumFrom n msgs).map
          (fun e => ([e.1], CosmosOp.callSubmitTransaction pluginName
            (convertedDatagrams fromRawDatagram e.2)))) := by
  intro msgs
  induction msgs with
  | nil => intro n _; rfl
  | cons op rest ih =>
    intro n h
    have hop := h op (List.mem_cons_self _ _)
    have hrest := ih (n + 1) (fun q hq => h q (List.mem_cons_of_mem _ hq))
    have hentry : runPassEntry fromRawDatagram pluginName chainId (n, op) =
        .ok ([n], CosmosOp.callSubmitTransaction pluginName
          (convertedDatagrams fromRawDatagram op)) := by
      cases op with
      | Data d =>
        cases d with
        | IdentifiedIbcDatagram cid msg =>
          simp only [datagramConvertible, Bool.and_eq_true, decide_eq_true_eq] at hop
          obtain ⟨hcid, hok⟩ := hop
          subst hcid
          cases hfr : fromRawDatagram msg with
          | ok x => simp [runPassEntry, convertedDatagrams, hfr]
          | error e => rw [hfr] at hok; simp [Except.isOk, Except.toBool] at hok
        | IdentifiedIbcDatagramBatch cid ms =>
          simp only [datagramConvertible, Bool.and_eq_true, decide_eq_true_eq] at hop
          obtain ⟨hcid, hok⟩ := hop
          subst hcid
          cases hfr : ms.mapM fromRawDatagram with
          | ok xs =>
            simp only [runPassEntry, convertedDatagrams, hfr]
            simp
          | error e => rw [hfr] at hok; simp [Except.isOk, Except.toBool] at hok
        | otherData tag => simp [datagramConvertible] at hop
      | otherOp tag => simp [datagramConvertible] at hop
    rw [show List.enumFrom n (op :: rest) = (n, op) :: List.enumFrom (n + 1) rest from rfl]
    rw [List.mapM_cons, hentry, hrest]
    rfl

/-- C8: for every op list, the cosmos-sdk transaction plugin's `run_pass`
returns an empty `optimize_further`, one ready entry per input op whose
replaced-index list is the singleton `[i]` of the op's position, and each
datagram (or datagram batch) op for the plugin's chain becomes a
`SubmitTransaction` call carrying the same (converted) datagrams. -/
theorem cosmos_run_pass_shape (fromRawDatagram : RawDatagram → Except String IbcMessage)
    (pluginName chainId : String) (msgs : List QueueOp)
    (h : ∀ op ∈ msgs, datagramConvertible fromRawDatagram chainId op = true) :
    cosmosRunPass fromRawDatagram pluginName chainId msgs =
      .ok { optimize_further := []
            ready := msgs.enum.map (fun e => ([e.1],
              CosmosOp.callSubmitTransaction pluginName
                (convertedDatagrams fromRawDatagram e.2))) } ∧
    (msgs.enum.map (fun e => ([e.1],
      CosmosOp.callSubmitTransaction pluginName
        (convertedDatagrams fromRawDatagram e.2)))).length = msgs.length ∧
    (msgs.enum.map (fun e => ([e.1],
      CosmosOp.callSubmitTransaction pluginName
        (convertedDatagrams fromRawDatagram e.2)))).map Prod.fst =
      (List.range msgs.length).map (fun i => [i]) := by
  refine ⟨?_, by simp, ?_⟩
  · unfold cosmosRunPass
    rw [show msgs.enum = List.enumFrom 0 msgs from rfl,
      runPass_mapM_enumFrom fromRawDatagram pluginName chainId msgs 0 h]
    rfl
  · rw [List.map_map, ← List.enum_map_fst msgs, List.map_map]
    rfl

theorem cosmos_run_pass_shape_witness :
    (∀ op ∈ ([QueueOp.Data (.IdentifiedIbcDatagram "chain-1"
          { tag := "recv_packet", body := [1] }),
        QueueOp.Data (.IdentifiedIbcDatagramBatch "chain-1"
          [{ tag := "ack_packet", body := [2] },
           { tag := "update_client", body := [3] }])]),
      datagramConvertible (fun rd => .ok { typeUrl := rd.tag, body := rd.body })
        "chain-1" op = true) ∧
    cosmosRunPass (fun rd => .ok { typeUrl := rd.tag, body := rd.body })
        "plugin/chain-1" "chain-1"
        [QueueOp.Data (.IdentifiedIbcDatagram "chain-1"
          { tag := "recv_packet", body := [1] }),
         QueueOp.Data (.IdentifiedIbcDatagramBatch "chain-1"
          [{ tag := "ack_packet", body := [2] },
           { tag := "update_client", body := [3] }])] =
      .ok { optimize_further := []
            ready := [([0], .callSubmitTransaction "plugin/chain-1"
                [{ typeUrl := "recv_packet", body := [1] }]),
              ([1], .callSubmitTransaction "plugin/chain-1"
                [{ typeUrl := "ack_packet", body := [2] },
                 { typeUrl := "update_client", body := [3] }])] } :=
  ⟨by decide, by
    have := (cosmos_run_pass_shape (fun rd => .ok { typeUrl := rd.tag, body := rd.body })
      "plugin/chain-1" "chain-1"
      [QueueOp.Data (.IdentifiedIbcDatagram "chain-1"
        { tag := "recv_packet", body := [1] }),
       QueueOp.Data (.IdentifiedIbcDatagramBatch "chain-1"
        [{ tag := "ack_packet", body := [2] },
         { tag := "update_client", body := [3] }])] (by decide)).1
    simpa using this⟩

/-- C9: every `ChainEvent` the cosmos-sdk event source's `MakeChainEvent`
handler constructs has `provable_height` equal to the height of the block
containing the event incremented by one — the handler computes
`height.increment()` once, before matching on the event kind, and every arm
uses it. -/
theorem makeChainEvent_provable_height (o : VoyagerOracle) (chainId : String)
    (height : Height) (txHash : List Nat) (event : RawEvent) (ce : ChainEvent)
    (h : makeChainEvent o chainId height txHash event = .ok ce) :
    ce.provable_height = height.increment := by
  cases event <;> simp only [makeChainEvent] at h <;> repeat' split at h
  all_goals cases h
  all_goals rfl

theorem makeChainEvent_provable_height_witness :
    makeChainEvent
      { clientInfo := fun _ _ _ => .ok
          { client_type := "cometbls", ibc_interface := "ibc-go-v8/08-wasm", metadata := "{}" }
        clientMeta := fun _ _ _ _ => .ok
          { height := { revision_number := 1, revision_height := 5 }, chain_id := "union-testnet-8" }
        connectionState := fun _ _ _ => .ok none
        channelState := fun _ _ _ _ => .ok none
        unionClientInfo := fun _ _ _ => .error "unused"
        unionClientMeta := fun _ _ _ _ => .error "unused" }
      "stargaze-1" { revision_number := 1, revision_height := 100 } [9]
      (.ClientOrConnection "CreateClient" "07-tendermint-0".toList) =
      .ok { chain_id := "stargaze-1"
            client_info := { client_type := "cometbls", ibc_interface := "ibc-go-v8/08-wasm", metadata := "{}" }
            counterparty_chain_id := "union-testnet-8"
            tx_hash := [9]
            provable_height := { revision_number := 1, revision_height := 101 }
            ibc_version_id := "ibc-v1"
            event := "CreateClient" } ∧
    ({ revision_number := 1, revision_height := 101 } : Height) =
      Height.increment { revision_number := 1, revision_height := 100 } :=
  ⟨rfl, makeChainEvent_provable_height
    { clientInfo := fun _ _ _ => .ok
        { client_type := "cometbls", ibc_interface := "ibc-go-v8/08-wasm", metadata := "{}" }
      clientMeta := fun _ _ _ _ => .ok
        { height := { revision_number := 1, revision_height := 5 }, chain_id := "union-testnet-8" }
      connectionState := fun _ _ _ => .ok none
      channelState := fun _ _ _ _ => .ok none
      unionClientInfo := fun _ _ _ => .error "unused"
      unionClientMeta := fun _ _ _ _ => .error "unused" }
    "stargaze-1" { revision_number := 1, revision_height := 100 } [9]
    (.ClientOrConnection "CreateClient" "07-tendermint-0".toList)
    { chain_id := "stargaze-1"
      client_info := { client_type := "cometbls", ibc_interface := "ibc-go-v8/08-wasm", metadata := "{}" }
      counterparty_chain_id := "union-testnet-8"
      tx_hash := [9]
      provable_height := { revision_number := 1, revision_height := 101 }
      ibc_version_id := "ibc-v1"
      event := "CreateClient" } rfl⟩
